import Mathlib

/-!
# Calculadora solar (Colombia): the sizing engine

A shallow embedding of the calculation carried out by the component
`CalculadoraSolarInteractiva` (file `src/components/CalculadoraSolarInteractiva.jsx`):
the table `REGION_HOURS`, the derived value `peakSunHours`, the memoised values
`dailyKwh` and `results`, and the two preset buttons.

The component is embedded twice.

* In exact arithmetic (namespace `CalculadoraSolar`): the inputs are kept as exact
  rationals and a computed value is an `Option ℚ`, `some q` being the finite number `q` and
  `none` a value that is not a finite number (`NaN`, `Infinity` or `-Infinity`), which is
  what a division by zero or arithmetic on a non-number produces.  This reading carries the
  worked example of the home preset, the monotonicity of the panel count, the region lookup
  and the presets, where rounding plays no part.
* In binary64 arithmetic (namespace `CalculadoraSolar.Binary64`): every product, quotient
  and difference is rounded as JavaScript rounds it.  This reading carries the statements
  in which a ceiling or a rounding follows a product or a quotient, where one unit in the
  last place of an intermediate result changes the answer, and the statements that depend
  on underflow.
-/

namespace CalculadoraSolar

/-! ## JavaScript primitives used by the component -/

/-- The expression `x || 0` on a finite number: `x` when it is truthy (non-zero), else `0`. -/
def orZero (x : ℚ) : ℚ := if x ≠ 0 then x else 0

/-- The function `Math.ceil` on a finite number. -/
def jsCeil (x : ℚ) : ℚ := ((Int.ceil x : ℤ) : ℚ)

/-- The function `Math.round` on a finite number: nearest integer, halves go up. -/
def jsRound (x : ℚ) : ℚ := ((Int.floor (x + 1 / 2) : ℤ) : ℚ)

/-- The quotient `a / b` for a finite divisor `b`: not finite when `b` is zero
(`x / 0` is an infinity or `NaN`) or when `a` already is not finite. -/
def divBy (a : Option ℚ) (b : ℚ) : Option ℚ :=
  if b = 0 then none else a.map (fun x => x / b)

/-- What reading a property of an object literal yields. -/
inductive Property where
  /-- an own entry of the literal, a number -/
  | number (q : ℚ)
  /-- a property found on `Object.prototype`: a function or an object, truthy, not a number -/
  | inherited
  /-- no such property -/
  | undefined
  deriving DecidableEq, Repr

/-- The property names every object literal inherits from `Object.prototype`. -/
def objectPrototypeKeys : List String :=
  ["constructor", "hasOwnProperty", "isPrototypeOf", "propertyIsEnumerable",
   "toLocaleString", "toString", "valueOf", "__proto__",
   "__defineGetter__", "__defineSetter__", "__lookupGetter__", "__lookupSetter__"]

/-- The value of `peakSunHours`: a number of hours, or a value that is not a number. -/
inductive SunHours where
  | hours (h : ℚ)
  | notNumber
  deriving DecidableEq, Repr

/-! ## The component -/

/-- The lookup `REGION_HOURS[region]`: the six own entries of the literal first,
then the prototype chain. -/
def REGION_HOURS (region : String) : Property :=
  if region = "Andina" then Property.number 5
  else if region = "Caribe" then Property.number (11 / 2)
  else if region = "Pacífica" then Property.number (24 / 5)
  else if region = "Orinoquía" then Property.number (26 / 5)
  else if region = "Amazonía" then Property.number (9 / 2)
  else if region = "Bogotá (Altura)" then Property.number (21 / 5)
  else if region ∈ objectPrototypeKeys then Property.inherited
  else Property.undefined

/-- The six keys of `REGION_HOURS`. -/
def regionKeys : List String :=
  ["Andina", "Caribe", "Pacífica", "Orinoquía", "Amazonía", "Bogotá (Altura)"]

/-- The state of the component: one field per `useState` hook. -/
structure Config where
  mode : String
  consumptionValue : ℚ
  consumptionPeriod : String
  desiredPowerKW : ℚ
  region : String
  panelWatt : ℚ
  lossesPercent : ℚ
  autonomyDays : ℚ
  dodPercent : ℚ
  inverterFactor : ℚ
  deriving DecidableEq

/-- The record returned by the `results` memo. -/
structure Results where
  dailyKwh : Option ℚ
  whPerDay : Option ℚ
  requiredArrayW : Option ℚ
  numPanels : Option ℚ
  arrayPeakPowerKW : Option ℚ
  suggestedInverterKW : Option ℚ
  batteryKwh : Option ℚ
  deriving DecidableEq

/-- The line `const peakSunHours = REGION_HOURS[region] || 5.0`. -/
def peakSunHours (region : String) : SunHours :=
  match REGION_HOURS region with
  | Property.number q => if q ≠ 0 then SunHours.hours q else SunHours.hours 5
  | Property.inherited => SunHours.notNumber
  | Property.undefined => SunHours.hours 5

/-- The product `x * peakSunHours`: `NaN` when `peakSunHours` is not a number. -/
def timesHours (x : ℚ) : SunHours → Option ℚ
  | SunHours.hours h => some (x * h)
  | SunHours.notNumber => none

/-- The memo `dailyKwh` (unrounded). -/
def dailyKwh (cfg : Config) : Option ℚ :=
  if cfg.mode = "consumo" then
    if cfg.consumptionPeriod = "monthly" then some (orZero cfg.consumptionValue / 30)
    else some (orZero cfg.consumptionValue)
  else
    timesHours (orZero cfg.desiredPowerKW) (peakSunHours cfg.region)

/-- The local `whPerDay = dailyKwh * 1000`. -/
def whPerDay (cfg : Config) : Option ℚ :=
  (dailyKwh cfg).map (fun e => e * 1000)

/-- The local `systemEfficiency = 1 - lossesPercent / 100`. -/
def systemEfficiency (cfg : Config) : ℚ := 1 - cfg.lossesPercent / 100

/-- The local `requiredArrayW`: the comparison `peakSunHours > 0` is false for a
value that is not a number. -/
def requiredArrayW (cfg : Config) : Option ℚ :=
  match peakSunHours cfg.region with
  | SunHours.hours h =>
      if h > 0 then (divBy (whPerDay cfg) (h * systemEfficiency cfg)).map jsCeil else some 0
  | SunHours.notNumber => some 0

/-- The local `numPanels`. -/
def numPanels (cfg : Config) : Option ℚ :=
  if cfg.panelWatt > 0 then (divBy (requiredArrayW cfg) cfg.panelWatt).map jsCeil else some 0

/-- The local `arrayPeakPowerKW`. -/
def arrayPeakPowerKW (cfg : Config) : Option ℚ :=
  (numPanels cfg).map (fun n => jsRound ((n * cfg.panelWatt) / 1000 * 100) / 100)

/-- The local `suggestedInverterKW`. -/
def suggestedInverterKW (cfg : Config) : Option ℚ :=
  (arrayPeakPowerKW cfg).map (fun p => jsCeil ((p * cfg.inverterFactor) * 100) / 100)

/-- The constant `inverterEfficiency = 0.95`. -/
def inverterEfficiency : ℚ := 95 / 100

/-- The local `usableFraction = (dodPercent / 100) * inverterEfficiency`. -/
def usableFraction (cfg : Config) : ℚ := (cfg.dodPercent / 100) * inverterEfficiency

/-- The local `batteryKwh`: `0` unless `autonomyDays > 0`. -/
def batteryKwh (cfg : Config) : Option ℚ :=
  if cfg.autonomyDays > 0 then
    (divBy ((dailyKwh cfg).map (fun e => e * cfg.autonomyDays)) (usableFraction cfg)).map
      (fun x => jsCeil (x * 100) / 100)
  else some 0

/-- The memo `results`: the record the component displays. -/
def results (cfg : Config) : Results :=
  { dailyKwh := (dailyKwh cfg).map (fun e => jsRound (e * 100) / 100)
    whPerDay := whPerDay cfg
    requiredArrayW := requiredArrayW cfg
    numPanels := numPanels cfg
    arrayPeakPowerKW := arrayPeakPowerKW cfg
    suggestedInverterKW := suggestedInverterKW cfg
    batteryKwh := batteryKwh cfg }

/-- The handler of the button "Ejemplo: Hogar (900 kWh/mes)": seven setters. -/
def presetHogar (cfg : Config) : Config :=
  { cfg with
    mode := "consumo", consumptionValue := 900, consumptionPeriod := "monthly",
    region := "Andina", panelWatt := 450, lossesPercent := 20, autonomyDays := 0 }

/-- The handler of the button "Ejemplo: Pequeña industria (8000 kWh/mes)": seven setters. -/
def presetIndustria (cfg : Config) : Config :=
  { cfg with
    mode := "consumo", consumptionValue := 8000, consumptionPeriod := "monthly",
    region := "Caribe", panelWatt := 540, lossesPercent := 18, autonomyDays := 1 }

/-! ## Configurations used as worked examples -/

/-- The configuration of the home example: 900 kWh per month in 'Andina' with 450 W
panels, 20 % losses, no autonomy, inverter factor 1.25. -/
def homeExample (dod dp : ℚ) : Config :=
  { mode := "consumo", consumptionValue := 900, consumptionPeriod := "monthly",
    desiredPowerKW := dp, region := "Andina", panelWatt := 450, lossesPercent := 20,
    autonomyDays := 0, dodPercent := dod, inverterFactor := 125 / 100 }

/-- The configuration of the inherited-name example: 5 kW in 'potencia' mode, the region
being the given name. -/
def regionExample (region : String) : Config :=
  { mode := "potencia", consumptionValue := 300, consumptionPeriod := "monthly",
    desiredPowerKW := 5, region := region, panelWatt := 450, lossesPercent := 20,
    autonomyDays := 0, dodPercent := 80, inverterFactor := 125 / 100 }

/-- The configuration of the rounding example: 100 kWh per month. -/
def roundingExample : Config :=
  { mode := "consumo", consumptionValue := 100, consumptionPeriod := "monthly",
    desiredPowerKW := 5, region := "Andina", panelWatt := 450, lossesPercent := 20,
    autonomyDays := 0, dodPercent := 80, inverterFactor := 125 / 100 }

/-- A prior state with the given depth of discharge and inverter factor. -/
def priorState (dod factor : ℚ) : Config :=
  { mode := "potencia", consumptionValue := 300, consumptionPeriod := "daily",
    desiredPowerKW := 5, region := "Pacífica", panelWatt := 300, lossesPercent := 10,
    autonomyDays := 2, dodPercent := dod, inverterFactor := factor }

/-! ## The same component in binary64 arithmetic

JavaScript numbers are IEEE 754 binary64 values.  The definitions below repeat the
component with every product, quotient and difference rounded to the nearest binary64
number (ties to even), with subnormal numbers, overflow to an infinity, signed zeros and
`NaN`.  A finite number is a sign and a rational magnitude. -/

namespace Binary64

/-- Number of halvings that bring `n` down to at most one, within the given fuel; with
fuel `n` this is the position of the leading bit of `n`. -/
def log2Fuel : ℕ → ℕ → ℕ
  | 0, _ => 0
  | fuel + 1, n => if n ≤ 1 then 0 else log2Fuel fuel (n / 2) + 1

/-- The binade of a positive rational: the integer `e` with `2 ^ e ≤ q < 2 ^ (e + 1)`. -/
def binade (q : ℚ) : ℤ :=
  if (2 : ℚ) ^ ((log2Fuel q.num.natAbs q.num.natAbs : ℤ) - (log2Fuel q.den q.den : ℤ)) ≤ q then
    (log2Fuel q.num.natAbs q.num.natAbs : ℤ) - (log2Fuel q.den q.den : ℤ)
  else (log2Fuel q.num.natAbs q.num.natAbs : ℤ) - (log2Fuel q.den q.den : ℤ) - 1

/-- Nearest integer, a tie going to the even one. -/
def roundHalfEven (m : ℚ) : ℤ :=
  if m - (Int.floor m : ℚ) < 1 / 2 then Int.floor m
  else if 1 / 2 < m - (Int.floor m : ℚ) then Int.floor m + 1
  else if Int.floor m % 2 = 0 then Int.floor m else Int.floor m + 1

/-- The spacing of the binary64 numbers around a positive rational: 53 significant bits,
and an exponent not below -1022 (below it the numbers are subnormal). -/
def quantum (q : ℚ) : ℚ := (2 : ℚ) ^ (max (binade q) (-1022) - 52)

/-- The positive rational rounded to a multiple of its quantum, before the overflow test. -/
def roundPos (q : ℚ) : ℚ := (roundHalfEven (q / quantum q) : ℚ) * quantum q

/-- A non-negative rational rounded to the nearest binary64 magnitude; `none` when the
rounded magnitude reaches `2 ^ 1024`, that is, on overflow. -/
def roundMag (q : ℚ) : Option ℚ :=
  if q = 0 then some 0
  else if (2 : ℚ) ^ (1024 : ℤ) ≤ roundPos q then none else some (roundPos q)

/-- A binary64 value: a finite number (sign, magnitude), an infinity (sign) or `NaN`. -/
inductive F64 where
  | finite (neg : Bool) (mag : ℚ)
  | infinite (neg : Bool)
  | nan
  deriving DecidableEq, Repr

/-- A signed rounded magnitude as a value. -/
def F64.ofMag (neg : Bool) : Option ℚ → F64
  | some m => F64.finite neg m
  | none => F64.infinite neg

/-- The binary64 number nearest a rational: the value of a numeric literal and of a
number typed into an input field. -/
def F64.ofRat (q : ℚ) : F64 :=
  if q < 0 then F64.ofMag true (roundMag (-q)) else F64.ofMag false (roundMag q)

/-- The rational value of a finite number (both zeros have value 0). -/
def F64.toRat : F64 → Option ℚ
  | F64.finite neg m => some (if neg then -m else m)
  | _ => none

/-- The product `x * y`. -/
def F64.mul : F64 → F64 → F64
  | F64.nan, _ => F64.nan
  | _, F64.nan => F64.nan
  | F64.infinite s, F64.infinite t => F64.infinite (xor s t)
  | F64.infinite s, F64.finite t m => if m = 0 then F64.nan else F64.infinite (xor s t)
  | F64.finite s m, F64.infinite t => if m = 0 then F64.nan else F64.infinite (xor s t)
  | F64.finite s a, F64.finite t b => F64.ofMag (xor s t) (roundMag (a * b))

/-- The quotient `x / y`. -/
def F64.div : F64 → F64 → F64
  | F64.nan, _ => F64.nan
  | _, F64.nan => F64.nan
  | F64.infinite _, F64.infinite _ => F64.nan
  | F64.infinite s, F64.finite t _ => F64.infinite (xor s t)
  | F64.finite s _, F64.infinite t => F64.finite (xor s t) 0
  | F64.finite s a, F64.finite t b =>
      if b = 0 then (if a = 0 then F64.nan else F64.infinite (xor s t))
      else F64.ofMag (xor s t) (roundMag (a / b))

/-- The difference `x - y`. -/
def F64.sub : F64 → F64 → F64
  | F64.nan, _ => F64.nan
  | _, F64.nan => F64.nan
  | F64.infinite s, F64.infinite t => if s = t then F64.nan else F64.infinite s
  | F64.infinite s, F64.finite _ _ => F64.infinite s
  | F64.finite _ _, F64.infinite t => F64.infinite (!t)
  | F64.finite s a, F64.finite t b =>
      if (if s then -a else a) - (if t then -b else b) = 0 then F64.finite (s && !t) 0
      else if (if s then -a else a) - (if t then -b else b) < 0 then
        F64.ofMag true (roundMag (-((if s then -a else a) - (if t then -b else b))))
      else F64.ofMag false (roundMag ((if s then -a else a) - (if t then -b else b)))

/-- An integer result with the sign of zero that `Math.ceil` and `Math.round` give. -/
def F64.ofInteger (negZero : Bool) (c : ℤ) : F64 :=
  if c = 0 then F64.finite negZero 0
  else if c < 0 then F64.finite true ((-c : ℤ) : ℚ) else F64.finite false (c : ℚ)

/-- The function `Math.ceil`. -/
def F64.ceil : F64 → F64
  | F64.finite s m =>
      F64.ofInteger (s || decide ((if s then -m else m) < 0)) (Int.ceil (if s then -m else m))
  | x => x

/-- The function `Math.round`: the nearest integer, a half going up. -/
def F64.round : F64 → F64
  | F64.finite s m =>
      F64.ofInteger (s || decide ((if s then -m else m) < 0))
        (Int.floor ((if s then -m else m) + 1 / 2))
  | x => x

/-- The comparison `x > 0`. -/
def F64.gtZero : F64 → Bool
  | F64.finite s m => !s && decide (0 < m)
  | F64.infinite s => !s
  | F64.nan => false

/-- The comparison `x <= y`. -/
def F64.le : F64 → F64 → Bool
  | F64.nan, _ => false
  | _, F64.nan => false
  | F64.infinite s, F64.infinite t => s || !t
  | F64.infinite s, F64.finite _ _ => s
  | F64.finite _ _, F64.infinite t => !t
  | F64.finite s a, F64.finite t b => decide ((if s then -a else a) ≤ (if t then -b else b))

/-- Truthiness of a number: false for both zeros and `NaN`. -/
def F64.truthy : F64 → Bool
  | F64.finite _ m => decide (m ≠ 0)
  | F64.infinite _ => true
  | F64.nan => false

/-- The expression `x || y` on numbers. -/
def F64.orElse (x y : F64) : F64 := if F64.truthy x then x else y

/-- The state of the component, in binary64. -/
structure Config where
  mode : String
  consumptionValue : F64
  consumptionPeriod : String
  desiredPowerKW : F64
  region : String
  panelWatt : F64
  lossesPercent : F64
  autonomyDays : F64
  dodPercent : F64
  inverterFactor : F64
  deriving DecidableEq

/-- The record returned by the `results` memo, in binary64. -/
structure Results where
  dailyKwh : F64
  whPerDay : F64
  requiredArrayW : F64
  numPanels : F64
  arrayPeakPowerKW : F64
  suggestedInverterKW : F64
  batteryKwh : F64
  deriving DecidableEq

/-- The line `const peakSunHours = REGION_HOURS[region] || 5.0`.  An inherited property is
not a number; in the product and the comparison that use `peakSunHours` it acts as `NaN`. -/
def peakSunHours (region : String) : F64 :=
  match REGION_HOURS region with
  | Property.number q => F64.orElse (F64.ofRat q) (F64.ofRat 5)
  | Property.inherited => F64.nan
  | Property.undefined => F64.ofRat 5

/-- The memo `dailyKwh` (unrounded). -/
def dailyKwh (cfg : Config) : F64 :=
  if cfg.mode = "consumo" then
    if cfg.consumptionPeriod = "monthly" then
      F64.div (F64.orElse cfg.consumptionValue (F64.ofRat 0)) (F64.ofRat 30)
    else F64.orElse cfg.consumptionValue (F64.ofRat 0)
  else
    F64.mul (F64.orElse cfg.desiredPowerKW (F64.ofRat 0)) (peakSunHours cfg.region)

/-- The local `whPerDay = dailyKwh * 1000`. -/
def whPerDay (cfg : Config) : F64 := F64.mul (dailyKwh cfg) (F64.ofRat 1000)

/-- The local `systemEfficiency = 1 - lossesPercent / 100`. -/
def systemEfficiency (cfg : Config) : F64 :=
  F64.sub (F64.ofRat 1) (F64.div cfg.lossesPercent (F64.ofRat 100))

/-- The local `requiredArrayW`. -/
def requiredArrayW (cfg : Config) : F64 :=
  if F64.gtZero (peakSunHours cfg.region) then
    F64.ceil (F64.div (whPerDay cfg) (F64.mul (peakSunHours cfg.region) (systemEfficiency cfg)))
  else F64.ofRat 0

/-- The local `numPanels`. -/
def numPanels (cfg : Config) : F64 :=
  if F64.gtZero cfg.panelWatt then F64.ceil (F64.div (requiredArrayW cfg) cfg.panelWatt)
  else F64.ofRat 0

/-- The local `arrayPeakPowerKW`. -/
def arrayPeakPowerKW (cfg : Config) : F64 :=
  F64.div
    (F64.round
      (F64.mul (F64.div (F64.mul (numPanels cfg) cfg.panelWatt) (F64.ofRat 1000)) (F64.ofRat 100)))
    (F64.ofRat 100)

/-- The local `suggestedInverterKW`. -/
def suggestedInverterKW (cfg : Config) : F64 :=
  F64.div
    (F64.ceil (F64.mul (F64.mul (arrayPeakPowerKW cfg) cfg.inverterFactor) (F64.ofRat 100)))
    (F64.ofRat 100)

/-- The constant `inverterEfficiency = 0.95`. -/
def inverterEfficiency : F64 := F64.ofRat (95 / 100)

/-- The local `usableFraction = (dodPercent / 100) * inverterEfficiency`. -/
def usableFraction (cfg : Config) : F64 :=
  F64.mul (F64.div cfg.dodPercent (F64.ofRat 100)) inverterEfficiency

/-- The local `batteryKwh`: `0` unless `autonomyDays > 0`. -/
def batteryKwh (cfg : Config) : F64 :=
  if F64.gtZero cfg.autonomyDays then
    F64.div
      (F64.ceil
        (F64.mul (F64.div (F64.mul (dailyKwh cfg) cfg.autonomyDays) (usableFraction cfg))
          (F64.ofRat 100)))
      (F64.ofRat 100)
  else F64.ofRat 0

/-- The memo `results`, in binary64. -/
def results (cfg : Config) : Results :=
  { dailyKwh := F64.div (F64.round (F64.mul (dailyKwh cfg) (F64.ofRat 100))) (F64.ofRat 100)
    whPerDay := whPerDay cfg
    requiredArrayW := requiredArrayW cfg
    numPanels := numPanels cfg
    arrayPeakPowerKW := arrayPeakPowerKW cfg
    suggestedInverterKW := suggestedInverterKW cfg
    batteryKwh := batteryKwh cfg }

/-- The initial state of the component (the arguments of the `useState` hooks). -/
def initialState : Config :=
  { mode := "consumo", consumptionValue := F64.ofRat 300, consumptionPeriod := "monthly",
    desiredPowerKW := F64.ofRat 5, region := "Andina", panelWatt := F64.ofRat 450,
    lossesPercent := F64.ofRat 20, autonomyDays := F64.ofRat 0, dodPercent := F64.ofRat 80,
    inverterFactor := F64.ofRat (125 / 100) }

/-- The order of rounded magnitudes, `none` being the overflow above every number. -/
def leMag : Option ℚ → Option ℚ → Prop
  | _, none => True
  | none, some _ => False
  | some a, some b => a ≤ b

/-- Every number of a rounded magnitude is non-negative. -/
def NonnegMag (x : Option ℚ) : Prop := ∀ a : ℚ, x = some a → 0 ≤ a

/-- The battery computation on rounded magnitudes: energy `x`, `d` days, usable
fraction `u`. -/
def batteryMag (x : Option ℚ) (d u : ℚ) : Option ℚ :=
  ((((x.bind (fun a => roundMag (a * d))).bind (fun a => roundMag (a / u))).bind
    (fun a => roundMag (a * 100))).bind (fun a => some ((Int.ceil a : ℤ) : ℚ))).bind
    (fun a => roundMag (a / 100))

/-- The initial state with inverter factor 1.5. -/
def factorExample : Config := { initialState with inverterFactor := F64.ofRat (15 / 10) }

/-- The underflow example: no consumption, depth of discharge 1e-323 %, the given
autonomy. -/
def underflowExample (days : ℚ) : Config :=
  { initialState with consumptionValue := F64.ofRat 0, autonomyDays := F64.ofRat days,
                      dodPercent := F64.ofRat (1 / 10 ^ 323) }

/-- The small-industry figures: 8000 kWh per month in 'Caribe', 540 W panels, 18 % losses,
one day of autonomy, depth of discharge 80 %. -/
def industryExample : Config :=
  { mode := "consumo", consumptionValue := F64.finite false 8000,
    consumptionPeriod := "monthly", desiredPowerKW := F64.finite false 5, region := "Caribe",
    panelWatt := F64.ofRat 540, lossesPercent := F64.ofRat 18,
    autonomyDays := F64.finite false 1, dodPercent := F64.finite false 80,
    inverterFactor := F64.ofRat (125 / 100) }

/-- The battery counterexample: 570 kWh per month, three days of autonomy, depth of
discharge 60 %. -/
def batteryRoundingExample : Config :=
  { initialState with consumptionValue := F64.ofRat 570, autonomyDays := F64.ofRat 3,
                      dodPercent := F64.ofRat 60 }

/-- The battery example of the specification: 10 kW in 'Caribe' ('potencia' mode), one
day of autonomy, depth of discharge 80 %. -/
def batteryExample : Config :=
  { initialState with mode := "potencia", desiredPowerKW := F64.ofRat 10, region := "Caribe",
                      autonomyDays := F64.ofRat 1 }

/-- The panel counterexample: 324 kWh per month in 'Pacífica', 25 % losses, 300 W panels. -/
def panelExample : Config :=
  { initialState with consumptionValue := F64.ofRat 324, region := "Pacífica",
                      lossesPercent := F64.ofRat 25, panelWatt := F64.ofRat 300 }

/-- The region counterexample: 5.4 kW in 'potencia' mode, no losses, 450 W panels, the
region being the given name. -/
def potenciaExample (region : String) : Config :=
  { initialState with mode := "potencia", desiredPowerKW := F64.ofRat (54 / 10),
                      region := region, lossesPercent := F64.ofRat 0 }

/-- The initial state in 'potencia' mode (5 kW, 20 % losses), the region being the given
name. -/
def potenciaDefault (region : String) : Config :=
  { initialState with mode := "potencia", region := region }

/-- The rounding example: 100 kWh per month. -/
def roundingExample : Config := { initialState with consumptionValue := F64.ofRat 100 }

end Binary64

/-! ## Basic facts -/

/-- On a finite number `x || 0` is `x`. -/
theorem orZero_eq (x : ℚ) : orZero x = x := by
  unfold orZero
  split_ifs with h
  · rfl
  · push_neg at h; exact h.symm

/-- Evaluation of `Math.ceil`: the integer `z` with `z - 1 < x <= z`. -/
theorem jsCeil_eq (x : ℚ) (z : ℤ) (h1 : (z : ℚ) - 1 < x) (h2 : x ≤ z) : jsCeil x = z := by
  unfold jsCeil
  exact_mod_cast congrArg (fun k : ℤ => (k : ℚ)) (Int.ceil_eq_iff.mpr ⟨h1, h2⟩)

/-- Evaluation of `Math.round`: the integer `z` with `z <= x + 1/2 < z + 1`. -/
theorem jsRound_eq (x : ℚ) (z : ℤ) (h1 : (z : ℚ) ≤ x + 1 / 2) (h2 : x + 1 / 2 < z + 1) :
    jsRound x = z := by
  unfold jsRound
  exact_mod_cast congrArg (fun k : ℤ => (k : ℚ)) (Int.floor_eq_iff.mpr ⟨h1, h2⟩)

/-- The ceiling is not below its argument. -/
theorem le_jsCeil (x : ℚ) : x ≤ jsCeil x := Int.le_ceil x

/-- The ceiling is monotone. -/
theorem jsCeil_mono {x y : ℚ} (h : x ≤ y) : jsCeil x ≤ jsCeil y := by
  unfold jsCeil
  exact_mod_cast Int.ceil_mono h

/-- The value of `peakSunHours` is either not a number or a positive number of hours. -/
theorem peakSunHours_cases (region : String) :
    peakSunHours region = SunHours.notNumber ∨
      ∃ h : ℚ, peakSunHours region = SunHours.hours h ∧ 0 < h := by
  unfold peakSunHours REGION_HOURS
  split_ifs <;> norm_num

/-- A number of hours read by `peakSunHours` is positive. -/
theorem peakSunHours_pos {region : String} {h : ℚ}
    (hh : peakSunHours region = SunHours.hours h) : 0 < h := by
  rcases peakSunHours_cases region with h1 | ⟨h2, e, hp⟩
  · rw [h1] at hh; cases hh
  · rw [e] at hh; cases hh; exact hp

/-- Fallback of `peakSunHours`: a name with no own entry and no inherited property reads `5.0`. -/
theorem peakSunHours_fallback (region : String) (hk : region ∉ regionKeys)
    (hi : region ∉ objectPrototypeKeys) : peakSunHours region = SunHours.hours 5 := by
  simp only [regionKeys, List.mem_cons, List.mem_singleton, List.not_mem_nil, or_false,
    not_or] at hk
  obtain ⟨h1, h2, h3, h4, h5, h6⟩ := hk
  simp [peakSunHours, REGION_HOURS, h1, h2, h3, h4, h5, h6, hi]

/-- Closed form of `requiredArrayW` when the daily energy and the sun hours are numbers
and the losses are not 100 %. -/
theorem requiredArrayW_eq (cfg : Config) (e h : ℚ) (he : dailyKwh cfg = some e)
    (hh : peakSunHours cfg.region = SunHours.hours h) (hl : cfg.lossesPercent ≠ 100) :
    requiredArrayW cfg = some (jsCeil (e * 1000 / (h * (1 - cfg.lossesPercent / 100)))) := by
  have hpos := peakSunHours_pos hh
  have hne : h * (1 - cfg.lossesPercent / 100) ≠ 0 := by
    apply mul_ne_zero hpos.ne.symm
    intro h0
    apply hl
    linarith
  simp [requiredArrayW, hh, hpos, whPerDay, he, systemEfficiency, divBy, hne]

/-- The array sizing is `0` when `peakSunHours` is not a number. -/
theorem requiredArrayW_notNumber (cfg : Config)
    (hh : peakSunHours cfg.region = SunHours.notNumber) : requiredArrayW cfg = some 0 := by
  simp [requiredArrayW, hh]

/-- Closed form of `numPanels` for a finite array size and a positive panel rating. -/
theorem numPanels_eq (cfg : Config) (w : ℚ) (hw : requiredArrayW cfg = some w)
    (hp : 0 < cfg.panelWatt) : numPanels cfg = some (jsCeil (w / cfg.panelWatt)) := by
  simp [numPanels, hp, hw, divBy, hp.ne.symm]

/-! ## Worked example of the home preset -/

/-- Evaluation of `results` on the home example. -/
theorem results_homeExample (dod dp : ℚ) :
    results (homeExample dod dp) =
      { dailyKwh := some 30, whPerDay := some 30000, requiredArrayW := some 7500,
        numPanels := some 17, arrayPeakPowerKW := some (765 / 100),
        suggestedInverterKW := some (957 / 100), batteryKwh := some 0 } := by
  have hp : peakSunHours "Andina" = SunHours.hours 5 := by decide
  have c1 : jsCeil 7500 = 7500 := jsCeil_eq _ 7500 (by norm_num) (by norm_num)
  have c2 : jsCeil (50 / 3) = 17 := jsCeil_eq _ 17 (by norm_num) (by norm_num)
  have c3 : jsRound 765 = 765 := jsRound_eq _ 765 (by norm_num) (by norm_num)
  have c4 : jsCeil (3825 / 4) = 957 := jsCeil_eq _ 957 (by norm_num) (by norm_num)
  have c5 : jsRound 3000 = 3000 := jsRound_eq _ 3000 (by norm_num) (by norm_num)
  simp [results, homeExample, dailyKwh, whPerDay, requiredArrayW, numPanels,
    arrayPeakPowerKW, suggestedInverterKW, batteryKwh, systemEfficiency, hp, divBy, orZero]
  norm_num [c1, c2, c3, c4, c5]

/-- C1: with mode 'consumo', 900 kWh per month, region 'Andina', 450 W panels, 20 % losses,
no autonomy and inverter factor 1.25, and any `dodPercent` and `desiredPowerKW`, the results
record is dailyKwh 30, whPerDay 30000, requiredArrayW 7500, numPanels 17,
arrayPeakPowerKW 7.65, suggestedInverterKW 9.57, batteryKwh 0. -/
theorem results_home_monthly (dod dp : ℚ) :
    results
        { mode := "consumo", consumptionValue := 900, consumptionPeriod := "monthly",
          desiredPowerKW := dp, region := "Andina", panelWatt := 450, lossesPercent := 20,
          autonomyDays := 0, dodPercent := dod, inverterFactor := 125 / 100 } =
      { dailyKwh := some 30, whPerDay := some 30000, requiredArrayW := some 7500,
        numPanels := some 17, arrayPeakPowerKW := some (765 / 100),
        suggestedInverterKW := some (957 / 100), batteryKwh := some 0 } :=
  results_homeExample dod dp

/-! ## Monotonicity -/

/-- The daily energy in 'consumo' mode or with numeric sun hours is monotone in the
consumption value. -/
theorem dailyKwh_mono_consumption (cfg : Config) (v1 v2 : ℚ) (h12 : v1 ≤ v2)
    (hh : peakSunHours cfg.region ≠ SunHours.notNumber) :
    ∃ e1 e2 : ℚ, dailyKwh { cfg with consumptionValue := v1 } = some e1 ∧
      dailyKwh { cfg with consumptionValue := v2 } = some e2 ∧ e1 ≤ e2 := by
  unfold dailyKwh
  simp only [orZero_eq]
  split_ifs
  · exact ⟨_, _, rfl, rfl, by linarith⟩
  · exact ⟨_, _, rfl, rfl, h12⟩
  · cases hp : peakSunHours cfg.region with
    | hours h => exact ⟨_, _, rfl, rfl, le_refl _⟩
    | notNumber => exact absurd hp hh

/-- C2: for two configurations that differ only in consumptionValue, with
v1 <= v2, lossesPercent < 100 and panelWatt > 0 (any mode, period and region),
numPanels is a number in both and the one for v1 is at most the one for v2.
The bounds 0 <= v1 and 0 <= lossesPercent of the claim are not needed. -/
theorem numPanels_mono_consumption (cfg : Config) (v1 v2 : ℚ) (h12 : v1 ≤ v2)
    (hl : cfg.lossesPercent < 100) (hp : 0 < cfg.panelWatt) :
    ∃ n1 n2 : ℚ,
      (results { cfg with consumptionValue := v1 }).numPanels = some n1 ∧
      (results { cfg with consumptionValue := v2 }).numPanels = some n2 ∧ n1 ≤ n2 := by
  show ∃ n1 n2 : ℚ, numPanels { cfg with consumptionValue := v1 } = some n1 ∧
      numPanels { cfg with consumptionValue := v2 } = some n2 ∧ n1 ≤ n2
  rcases peakSunHours_cases cfg.region with hn | ⟨h, hh, hpos⟩
  · have r1 := requiredArrayW_notNumber { cfg with consumptionValue := v1 } hn
    have r2 := requiredArrayW_notNumber { cfg with consumptionValue := v2 } hn
    exact ⟨_, _, numPanels_eq _ _ r1 hp, numPanels_eq _ _ r2 hp, le_refl _⟩
  · obtain ⟨e1, e2, he1, he2, hle⟩ :=
      dailyKwh_mono_consumption cfg v1 v2 h12 (by rw [hh]; exact fun h => by cases h)
    have r1 := requiredArrayW_eq { cfg with consumptionValue := v1 } e1 h he1 hh hl.ne
    have r2 := requiredArrayW_eq { cfg with consumptionValue := v2 } e2 h he2 hh hl.ne
    refine ⟨_, _, numPanels_eq _ _ r1 hp, numPanels_eq _ _ r2 hp, ?_⟩
    have hden : 0 < h * (1 - cfg.lossesPercent / 100) := by
      apply mul_pos hpos; linarith
    apply jsCeil_mono
    apply div_le_div_of_nonneg_right _ hp.le
    apply jsCeil_mono
    apply div_le_div_of_nonneg_right _ hden.le
    linarith

/-- Witness of C2: 300 and 900 kWh per month at the default settings. -/
theorem numPanels_mono_consumption_witness :
    ∃ n1 n2 : ℚ,
      (results { mode := "consumo", consumptionValue := 300, consumptionPeriod := "monthly",
                 desiredPowerKW := 5, region := "Andina", panelWatt := 450,
                 lossesPercent := 20, autonomyDays := 0, dodPercent := 80,
                 inverterFactor := 125 / 100 }).numPanels = some n1 ∧
      (results { mode := "consumo", consumptionValue := 900, consumptionPeriod := "monthly",
                 desiredPowerKW := 5, region := "Andina", panelWatt := 450,
                 lossesPercent := 20, autonomyDays := 0, dodPercent := 80,
                 inverterFactor := 125 / 100 }).numPanels = some n2 ∧ n1 ≤ n2 :=
  numPanels_mono_consumption
    { mode := "consumo", consumptionValue := 0, consumptionPeriod := "monthly",
      desiredPowerKW := 5, region := "Andina", panelWatt := 450,
      lossesPercent := 20, autonomyDays := 0, dodPercent := 80,
      inverterFactor := 125 / 100 } 300 900 (by norm_num) (by norm_num) (by norm_num)

/-! ## Region lookup -/

/-- The results depend on the region only through `peakSunHours`. -/
theorem results_congr_region (cfg : Config) (r1 r2 : String)
    (h : peakSunHours r1 = peakSunHours r2) :
    results { cfg with region := r1 } = results { cfg with region := r2 } := by
  simp only [results, dailyKwh, whPerDay, requiredArrayW, numPanels, arrayPeakPowerKW,
    suggestedInverterKW, batteryKwh, systemEfficiency, usableFraction, h]

/-- C6 amended: for every region name that is neither one of the six keys of
`REGION_HOURS` nor the name of a property inherited from `Object.prototype`, peakSunHours
is 5.0 and the whole results record is the one of region 'Andina', all other inputs
being equal. -/
theorem results_fallback (cfg : Config) (region : String) (hk : region ∉ regionKeys)
    (hi : region ∉ objectPrototypeKeys) :
    peakSunHours region = SunHours.hours 5 ∧
      results { cfg with region := region } = results { cfg with region := "Andina" } := by
  have h5 := peakSunHours_fallback region hk hi
  have hA : peakSunHours "Andina" = SunHours.hours 5 := by decide
  exact ⟨h5, results_congr_region cfg region "Andina" (by rw [h5, hA])⟩

/-- Witness of C6 amended: the unknown region name 'Unknown'. -/
theorem results_fallback_witness :
    peakSunHours "Unknown" = SunHours.hours 5 ∧
      results { regionExample "Andina" with region := "Unknown" } =
        results { regionExample "Andina" with region := "Andina" } :=
  results_fallback (regionExample "Andina") "Unknown" (by decide) (by decide)

/-- C6 as stated fails at the region name 'constructor': it is not one of the six keys, yet
the lookup finds the property inherited from `Object.prototype`, so `peakSunHours` is not 5.0
(it is not a number), the daily energy in 'potencia' mode is not a number and the array
size is 0, while 'Andina' gives 25 kWh and 6250 W. -/
theorem peakSunHours_inherited_name :
    "constructor" ∉ regionKeys ∧
      peakSunHours "constructor" = SunHours.notNumber ∧
      peakSunHours "constructor" ≠ SunHours.hours 5 ∧
      (results (regionExample "constructor")).dailyKwh = none ∧
      (results (regionExample "Andina")).dailyKwh = some 25 ∧
      (results (regionExample "constructor")).requiredArrayW = some 0 ∧
      (results (regionExample "Andina")).requiredArrayW = some 6250 ∧
      results (regionExample "constructor") ≠ results (regionExample "Andina") := by
  have hc : peakSunHours "constructor" = SunHours.notNumber := by decide
  have hA : peakSunHours "Andina" = SunHours.hours 5 := by decide
  have d1 : (results (regionExample "constructor")).dailyKwh = none := by
    simp [results, dailyKwh, regionExample, hc, timesHours]
  have d2 : (results (regionExample "Andina")).dailyKwh = some 25 := by
    have c : jsRound 2500 = 2500 := jsRound_eq _ 2500 (by norm_num) (by norm_num)
    simp [results, dailyKwh, regionExample, hA, timesHours, orZero]
    norm_num [c]
  have r1 : (results (regionExample "constructor")).requiredArrayW = some 0 := by
    simp [results, requiredArrayW, regionExample, hc]
  have r2 : (results (regionExample "Andina")).requiredArrayW = some 6250 := by
    have c : jsCeil 6250 = 6250 := jsCeil_eq _ 6250 (by norm_num) (by norm_num)
    simp [results, requiredArrayW, whPerDay, dailyKwh, systemEfficiency, divBy,
      regionExample, hA, timesHours, orZero]
    norm_num [c]
  refine ⟨by decide, hc, by decide, d1, d2, r1, r2, ?_⟩
  intro h
  rw [h, d2] at d1
  cases d1

/-! ## The returned record -/

/-- Daily energy of the rounding example: 10/3 kWh. -/
theorem dailyKwh_roundingExample : dailyKwh roundingExample = some (10 / 3) := by
  simp [dailyKwh, roundingExample, orZero]
  norm_num

/-- C7 as stated fails: at 100 kWh per month the record has dailyKwh 3.33 and whPerDay
10000/3, which is not 1000 times 3.33. -/
theorem whPerDay_not_thousand_times_field :
    (results roundingExample).dailyKwh = some (333 / 100) ∧
      (results roundingExample).whPerDay = some (10000 / 3) ∧
      (results roundingExample).whPerDay ≠
        ((results roundingExample).dailyKwh).map (fun d => 1000 * d) := by
  have c : jsRound (10 / 3 * 100) = 333 := jsRound_eq _ 333 (by norm_num) (by norm_num)
  have a : (results roundingExample).dailyKwh = some (333 / 100) := by
    simp only [results, dailyKwh_roundingExample, Option.map_some', c]
  have b : (results roundingExample).whPerDay = some (10000 / 3) := by
    simp only [results, whPerDay, dailyKwh_roundingExample, Option.map_some']
    norm_num
  refine ⟨a, b, ?_⟩
  rw [a, b]
  norm_num

/-! ## Presets -/

/-- The suggested inverter after the home preset, for a prior inverter factor. -/
theorem suggestedInverterKW_presetHogar (cfg : Config) :
    (results (presetHogar cfg)).suggestedInverterKW =
      some (jsCeil (765 / 100 * cfg.inverterFactor * 100) / 100) := by
  have hp : peakSunHours "Andina" = SunHours.hours 5 := by decide
  have c1 : jsCeil 7500 = 7500 := jsCeil_eq _ 7500 (by norm_num) (by norm_num)
  have c2 : jsCeil (50 / 3) = 17 := jsCeil_eq _ 17 (by norm_num) (by norm_num)
  have c3 : jsRound 765 = 765 := jsRound_eq _ 765 (by norm_num) (by norm_num)
  simp [results, presetHogar, dailyKwh, whPerDay, requiredArrayW, numPanels,
    arrayPeakPowerKW, suggestedInverterKW, systemEfficiency, hp, divBy, orZero]
  norm_num [c1, c2, c3]

/-- C8 as stated fails: after the home preset the inverter factor is still the prior one
(1.25 against 2), and the recomputed records differ (suggested inverter 9.57 against
15.3); likewise the depth of discharge survives the small-industry preset. -/
theorem preset_keeps_prior_fields :
    (presetHogar (priorState 80 (125 / 100))).inverterFactor = 125 / 100 ∧
      (presetHogar (priorState 80 2)).inverterFactor = 2 ∧
      (results (presetHogar (priorState 80 (125 / 100)))).suggestedInverterKW
        = some (957 / 100) ∧
      (results (presetHogar (priorState 80 2))).suggestedInverterKW = some (1530 / 100) ∧
      results (presetHogar (priorState 80 (125 / 100))) ≠
        results (presetHogar (priorState 80 2)) ∧
      (presetIndustria (priorState 80 2)).dodPercent = 80 ∧
      (presetIndustria (priorState 50 2)).dodPercent = 50 := by
  have a : (results (presetHogar (priorState 80 (125 / 100)))).suggestedInverterKW
      = some (957 / 100) := by
    rw [suggestedInverterKW_presetHogar]
    have c : jsCeil (765 / 100 * (125 / 100) * 100) = 957 :=
      jsCeil_eq _ 957 (by norm_num) (by norm_num)
    simp only [priorState, c]
  have b : (results (presetHogar (priorState 80 2))).suggestedInverterKW
      = some (1530 / 100) := by
    rw [suggestedInverterKW_presetHogar]
    have c : jsCeil (765 / 100 * 2 * 100) = 1530 :=
      jsCeil_eq _ 1530 (by norm_num) (by norm_num)
    simp only [priorState, c]
  refine ⟨rfl, rfl, a, b, ?_, rfl, rfl⟩
  intro h
  rw [h, b] at a
  norm_num at a

/-- C8 amended: each preset sets mode, consumptionValue, consumptionPeriod, region,
panelWatt, lossesPercent and autonomyDays to fixed values and keeps desiredPowerKW,
dodPercent and inverterFactor of the prior configuration; the recomputed record is the
same for prior configurations with equal inverterFactor (home) and with equal
inverterFactor and dodPercent (small industry). -/
theorem preset_overwrites_seven_fields :
    (∀ cfg : Config, presetHogar cfg =
      { mode := "consumo", consumptionValue := 900, consumptionPeriod := "monthly",
        desiredPowerKW := cfg.desiredPowerKW, region := "Andina", panelWatt := 450,
        lossesPercent := 20, autonomyDays := 0, dodPercent := cfg.dodPercent,
        inverterFactor := cfg.inverterFactor }) ∧
    (∀ cfg : Config, presetIndustria cfg =
      { mode := "consumo", consumptionValue := 8000, consumptionPeriod := "monthly",
        desiredPowerKW := cfg.desiredPowerKW, region := "Caribe", panelWatt := 540,
        lossesPercent := 18, autonomyDays := 1, dodPercent := cfg.dodPercent,
        inverterFactor := cfg.inverterFactor }) ∧
    (∀ c1 c2 : Config, c1.inverterFactor = c2.inverterFactor →
      results (presetHogar c1) = results (presetHogar c2)) ∧
    (∀ c1 c2 : Config, c1.inverterFactor = c2.inverterFactor →
      c1.dodPercent = c2.dodPercent →
      results (presetIndustria c1) = results (presetIndustria c2)) := by
  refine ⟨fun _ => rfl, fun _ => rfl, ?_, ?_⟩
  · intro c1 c2 hf
    simp [results, presetHogar, dailyKwh, whPerDay, requiredArrayW, numPanels,
      arrayPeakPowerKW, suggestedInverterKW, batteryKwh, systemEfficiency, hf]
  · intro c1 c2 hf hd
    simp [results, presetIndustria, dailyKwh, whPerDay, requiredArrayW, numPanels,
      arrayPeakPowerKW, suggestedInverterKW, batteryKwh, systemEfficiency, usableFraction,
      hf, hd]

/-- Witness of C8 amended: two prior states with inverter factor 1.25 and depth of
discharge 80 % that differ in every field the presets overwrite. -/
theorem preset_overwrites_seven_fields_witness :
    results (presetHogar (priorState 80 (125 / 100))) =
        results (presetHogar (homeExample 80 7)) ∧
      results (presetIndustria (priorState 80 (125 / 100))) =
        results (presetIndustria (homeExample 80 7)) :=
  ⟨preset_overwrites_seven_fields.2.2.1 (priorState 80 (125 / 100)) (homeExample 80 7) rfl,
   preset_overwrites_seven_fields.2.2.2 (priorState 80 (125 / 100)) (homeExample 80 7)
     rfl rfl⟩

namespace Binary64

/-! ## Rounding to binary64 is monotone -/

/-- With enough fuel `log2Fuel` finds the leading bit: `2 ^ r ≤ n < 2 ^ (r + 1)`. -/
theorem log2Fuel_spec : ∀ (fuel n : ℕ), 1 ≤ n → n ≤ fuel →
    2 ^ log2Fuel fuel n ≤ n ∧ n < 2 ^ (log2Fuel fuel n + 1)
  | 0, n, h1, hf => by omega
  | fuel + 1, n, h1, hf => by
      unfold log2Fuel
      split_ifs with h
      · have : n = 1 := by omega
        subst this
        simp
      · have h2 : 2 ≤ n := by omega
        have hd1 : 1 ≤ n / 2 := by omega
        have hdf : n / 2 ≤ fuel := by omega
        obtain ⟨ih1, ih2⟩ := log2Fuel_spec fuel (n / 2) hd1 hdf
        constructor
        · calc 2 ^ (log2Fuel fuel (n / 2) + 1) = 2 ^ log2Fuel fuel (n / 2) * 2 := pow_succ _ _
            _ ≤ n / 2 * 2 := Nat.mul_le_mul_right 2 ih1
            _ ≤ n := Nat.div_mul_le_self n 2
        · have : n < (n / 2 + 1) * 2 := by omega
          calc n < (n / 2 + 1) * 2 := this
            _ ≤ 2 ^ (log2Fuel fuel (n / 2) + 1) * 2 := Nat.mul_le_mul_right 2 ih2
            _ = 2 ^ (log2Fuel fuel (n / 2) + 1 + 1) := (pow_succ _ _).symm

/-- The binade brackets a positive rational: `2 ^ e ≤ q < 2 ^ (e + 1)`. -/
theorem binade_spec (q : ℚ) (hq : 0 < q) :
    (2 : ℚ) ^ binade q ≤ q ∧ q < (2 : ℚ) ^ (binade q + 1) := by
  have hn : 0 < q.num := Rat.num_pos.mpr hq
  have hn1 : 1 ≤ q.num.natAbs := by omega
  have hd1 : 1 ≤ q.den := q.den_pos
  obtain ⟨a1, a2⟩ := log2Fuel_spec q.num.natAbs q.num.natAbs hn1 le_rfl
  obtain ⟨b1, b2⟩ := log2Fuel_spec q.den q.den hd1 le_rfl
  set a := log2Fuel q.num.natAbs q.num.natAbs with ha
  set b := log2Fuel q.den q.den with hb
  have hqe : q = (q.num.natAbs : ℚ) / (q.den : ℚ) := by
    have h1 : ((q.num.natAbs : ℕ) : ℤ) = q.num := Int.natAbs_of_nonneg hn.le
    have h2 : ((q.num.natAbs : ℕ) : ℚ) = (q.num : ℚ) := by
      calc ((q.num.natAbs : ℕ) : ℚ) = (((q.num.natAbs : ℕ) : ℤ) : ℚ) := (Int.cast_natCast _).symm
        _ = (q.num : ℚ) := by rw [h1]
    rw [h2]
    exact (Rat.num_div_den q).symm
  have hdq : (0 : ℚ) < (q.den : ℚ) := by exact_mod_cast q.den_pos
  have A1 : ((2 : ℚ) ^ a) ≤ (q.num.natAbs : ℚ) := by exact_mod_cast a1
  have A2 : (q.num.natAbs : ℚ) < (2 : ℚ) ^ (a + 1) := by exact_mod_cast a2
  have B1 : ((2 : ℚ) ^ b) ≤ (q.den : ℚ) := by exact_mod_cast b1
  have B2 : (q.den : ℚ) < (2 : ℚ) ^ (b + 1) := by exact_mod_cast b2
  have two_ne : (2 : ℚ) ≠ 0 := by norm_num
  have hlow : (2 : ℚ) ^ ((a : ℤ) - (b : ℤ) - 1) ≤ q := by
    have e : (2 : ℚ) ^ ((a : ℤ) - (b : ℤ) - 1) = (2 : ℚ) ^ a / (2 : ℚ) ^ (b + 1) := by
      rw [show (a : ℤ) - (b : ℤ) - 1 = (a : ℤ) - ((b + 1 : ℕ) : ℤ) by push_cast; ring]
      rw [zpow_sub₀ two_ne, zpow_natCast, zpow_natCast]
    rw [e, hqe]
    have hp : (0 : ℚ) < (2 : ℚ) ^ (b + 1) := by positivity
    rw [div_le_div_iff₀ hp hdq]
    have hna : (0 : ℚ) ≤ (2 : ℚ) ^ a := by positivity
    calc (2 : ℚ) ^ a * (q.den : ℚ) ≤ (2 : ℚ) ^ a * (2 : ℚ) ^ (b + 1) :=
          mul_le_mul_of_nonneg_left B2.le hna
      _ ≤ (q.num.natAbs : ℚ) * (2 : ℚ) ^ (b + 1) := mul_le_mul_of_nonneg_right A1 hp.le
  have hhigh : q < (2 : ℚ) ^ ((a : ℤ) - (b : ℤ) + 1) := by
    have e : (2 : ℚ) ^ ((a : ℤ) - (b : ℤ) + 1) = (2 : ℚ) ^ (a + 1) / (2 : ℚ) ^ b := by
      rw [show (a : ℤ) - (b : ℤ) + 1 = ((a + 1 : ℕ) : ℤ) - (b : ℤ) by push_cast; ring]
      rw [zpow_sub₀ two_ne, zpow_natCast, zpow_natCast]
    rw [e, hqe]
    have hp : (0 : ℚ) < (2 : ℚ) ^ b := by positivity
    rw [div_lt_div_iff₀ hdq hp]
    have hnn : (0 : ℚ) ≤ (q.num.natAbs : ℚ) := by positivity
    calc (q.num.natAbs : ℚ) * (2 : ℚ) ^ b ≤ (q.num.natAbs : ℚ) * (q.den : ℚ) :=
          mul_le_mul_of_nonneg_left B1 hnn
      _ < (2 : ℚ) ^ (a + 1) * (q.den : ℚ) := mul_lt_mul_of_pos_right A2 hdq
  unfold binade
  rw [← ha, ← hb]
  split_ifs with h
  · exact ⟨h, hhigh⟩
  · push_neg at h
    refine ⟨hlow, ?_⟩
    rw [show (a : ℤ) - (b : ℤ) - 1 + 1 = (a : ℤ) - (b : ℤ) by ring]
    exact h

/-- The binade is monotone on positive rationals. -/
theorem binade_mono {q1 q2 : ℚ} (h1 : 0 < q1) (h12 : q1 ≤ q2) : binade q1 ≤ binade q2 := by
  obtain ⟨l1, _⟩ := binade_spec q1 h1
  obtain ⟨_, u2⟩ := binade_spec q2 (lt_of_lt_of_le h1 h12)
  have : (2 : ℚ) ^ binade q1 < (2 : ℚ) ^ (binade q2 + 1) :=
    lt_of_le_of_lt (le_trans l1 h12) u2
  have := (zpow_lt_zpow_iff_right₀ (by norm_num : (1 : ℚ) < 2)).mp this
  omega

/-- Rounding to the nearest integer moves a number by at most one half. -/
theorem roundHalfEven_bounds (m : ℚ) :
    m - 1 / 2 ≤ (roundHalfEven m : ℚ) ∧ (roundHalfEven m : ℚ) ≤ m + 1 / 2 := by
  have h1 : (Int.floor m : ℚ) ≤ m := Int.floor_le m
  have h2 : m < (Int.floor m : ℚ) + 1 := Int.lt_floor_add_one m
  unfold roundHalfEven
  split_ifs with a b c
  · constructor <;> linarith
  · constructor <;> push_cast <;> linarith
  · push_neg at a b
    constructor <;> linarith
  · push_neg at a b
    constructor <;> push_cast <;> linarith

/-- An integer rounds to itself. -/
theorem roundHalfEven_intCast (k : ℤ) : roundHalfEven (k : ℚ) = k := by
  unfold roundHalfEven
  rw [Int.floor_intCast]
  simp

/-- Rounding to the nearest integer is monotone. -/
theorem roundHalfEven_mono {m1 m2 : ℚ} (h : m1 ≤ m2) : roundHalfEven m1 ≤ roundHalfEven m2 := by
  by_contra hlt
  push_neg at hlt
  have hlt2 : roundHalfEven m2 + 1 ≤ roundHalfEven m1 := hlt
  have hq : (roundHalfEven m2 : ℚ) + 1 ≤ (roundHalfEven m1 : ℚ) := by exact_mod_cast hlt2
  obtain ⟨_, u1⟩ := roundHalfEven_bounds m1
  obtain ⟨l2, _⟩ := roundHalfEven_bounds m2
  have e : m1 = m2 := by linarith
  rw [e] at hlt
  exact lt_irrefl _ hlt

/-- The quantum is positive. -/
theorem quantum_pos (q : ℚ) : 0 < quantum q := by
  unfold quantum
  positivity

/-- Rounding a positive rational to its quantum is monotone. -/
theorem roundPos_mono {q1 q2 : ℚ} (h1 : 0 < q1) (h12 : q1 ≤ q2) : roundPos q1 ≤ roundPos q2 := by
  have h2 : 0 < q2 := lt_of_lt_of_le h1 h12
  have hb := binade_mono h1 h12
  have hP : max (binade q1) (-1022) - 52 ≤ max (binade q2) (-1022) - 52 := by omega
  rcases eq_or_lt_of_le hP with heq | hlt
  · -- same quantum
    have hQ : quantum q1 = quantum q2 := by unfold quantum; rw [heq]
    unfold roundPos
    rw [hQ]
    have hpos := quantum_pos q2
    apply mul_le_mul_of_nonneg_right _ hpos.le
    have : roundHalfEven (q1 / quantum q2) ≤ roundHalfEven (q2 / quantum q2) :=
      roundHalfEven_mono (div_le_div_of_nonneg_right h12 hpos.le)
    exact_mod_cast this
  · -- the second number lies in a higher binade
    have he2 : max (binade q2) (-1022) = binade q2 := by omega
    have two_ne : (2 : ℚ) ≠ 0 := by norm_num
    have one_lt : (1 : ℚ) < 2 := by norm_num
    obtain ⟨_, u1⟩ := binade_spec q1 h1
    obtain ⟨l2, _⟩ := binade_spec q2 h2
    -- upper bound of the first
    have hup : roundPos q1 ≤ (2 : ℚ) ^ (max (binade q1) (-1022) - 52 + 53) := by
      unfold roundPos quantum
      set P := max (binade q1) (-1022) - 52 with hPdef
      have hQpos : (0 : ℚ) < (2 : ℚ) ^ P := by positivity
      have hq1 : q1 ≤ (2 : ℚ) ^ (P + 53) := by
        have : (2 : ℚ) ^ (binade q1 + 1) ≤ (2 : ℚ) ^ (P + 53) :=
          (zpow_le_zpow_iff_right₀ one_lt).mpr (by omega)
        exact le_trans u1.le this
      have hm : q1 / (2 : ℚ) ^ P ≤ (((2 : ℤ) ^ 53 : ℤ) : ℚ) := by
        rw [div_le_iff₀ hQpos]
        have : (2 : ℚ) ^ (P + 53) = (((2 : ℤ) ^ 53 : ℤ) : ℚ) * (2 : ℚ) ^ P := by
          rw [zpow_add₀ two_ne, mul_comm]
          norm_num
        rw [← this]
        exact hq1
      have hr : roundHalfEven (q1 / (2 : ℚ) ^ P) ≤ (2 : ℤ) ^ 53 := by
        have := roundHalfEven_mono hm
        rw [roundHalfEven_intCast] at this
        exact this
      have hrq : (roundHalfEven (q1 / (2 : ℚ) ^ P) : ℚ) ≤ (((2 : ℤ) ^ 53 : ℤ) : ℚ) := by
        exact_mod_cast hr
      calc (roundHalfEven (q1 / (2 : ℚ) ^ P) : ℚ) * (2 : ℚ) ^ P
          ≤ (((2 : ℤ) ^ 53 : ℤ) : ℚ) * (2 : ℚ) ^ P := mul_le_mul_of_nonneg_right hrq hQpos.le
        _ = (2 : ℚ) ^ (P + 53) := by
          rw [zpow_add₀ two_ne, mul_comm]
          norm_num
    -- lower bound of the second
    have hlow : (2 : ℚ) ^ (binade q2) ≤ roundPos q2 := by
      unfold roundPos quantum
      rw [he2]
      set P := binade q2 - 52 with hPdef
      have hQpos : (0 : ℚ) < (2 : ℚ) ^ P := by positivity
      have hm : (((2 : ℤ) ^ 52 : ℤ) : ℚ) ≤ q2 / (2 : ℚ) ^ P := by
        rw [le_div_iff₀ hQpos]
        have : (((2 : ℤ) ^ 52 : ℤ) : ℚ) * (2 : ℚ) ^ P = (2 : ℚ) ^ (binade q2) := by
          have e : binade q2 = P + 52 := by omega
          rw [e, zpow_add₀ two_ne, mul_comm]
          norm_num
        rw [this]
        exact l2
      have hr : (2 : ℤ) ^ 52 ≤ roundHalfEven (q2 / (2 : ℚ) ^ P) := by
        have := roundHalfEven_mono hm
        rw [roundHalfEven_intCast] at this
        exact this
      have hrq : (((2 : ℤ) ^ 52 : ℤ) : ℚ) ≤ (roundHalfEven (q2 / (2 : ℚ) ^ P) : ℚ) := by
        exact_mod_cast hr
      calc (2 : ℚ) ^ (binade q2) = (((2 : ℤ) ^ 52 : ℤ) : ℚ) * (2 : ℚ) ^ P := by
            have e : binade q2 = P + 52 := by omega
            rw [e, zpow_add₀ two_ne, mul_comm]
            norm_num
        _ ≤ (roundHalfEven (q2 / (2 : ℚ) ^ P) : ℚ) * (2 : ℚ) ^ P :=
            mul_le_mul_of_nonneg_right hrq hQpos.le
    have hmid : (2 : ℚ) ^ (max (binade q1) (-1022) - 52 + 53) ≤ (2 : ℚ) ^ (binade q2) :=
      (zpow_le_zpow_iff_right₀ one_lt).mpr (by omega)
    exact le_trans hup (le_trans hmid hlow)

/-- A rounded positive rational is not negative. -/
theorem roundPos_nonneg {q : ℚ} (h : 0 ≤ q) : 0 ≤ roundPos q := by
  unfold roundPos
  apply mul_nonneg _ (quantum_pos q).le
  have hm : ((0 : ℤ) : ℚ) ≤ q / quantum q := by
    simpa using div_nonneg h (quantum_pos q).le
  have := roundHalfEven_mono hm
  rw [roundHalfEven_intCast] at this
  exact_mod_cast this

/-- Rounding magnitudes to binary64 is monotone, overflow included. -/
theorem roundMag_mono {q1 q2 : ℚ} (h1 : 0 ≤ q1) (h12 : q1 ≤ q2) :
    leMag (roundMag q1) (roundMag q2) := by
  unfold roundMag
  by_cases z1 : q1 = 0
  · subst z1
    simp only [if_true]
    split_ifs
    · exact le_refl (0 : ℚ)
    · trivial
    · exact roundPos_nonneg h12
  · have p1 : 0 < q1 := lt_of_le_of_ne h1 (Ne.symm z1)
    have z2 : q2 ≠ 0 := (lt_of_lt_of_le p1 h12).ne.symm
    have hm := roundPos_mono p1 h12
    simp only [z1, z2, if_false]
    split_ifs with a b
    · trivial
    · exact absurd (le_trans a hm) b
    · trivial
    · exact hm

/-- A rounded magnitude is not negative. -/
theorem roundMag_nonneg {q r : ℚ} (h : 0 ≤ q) (hr : roundMag q = some r) : 0 ≤ r := by
  unfold roundMag at hr
  split_ifs at hr
  · cases hr; exact le_refl 0
  · cases hr; exact roundPos_nonneg h

/-! ## Non-negative values as rounded magnitudes -/

/-- The literal `0`. -/
theorem ofRat_zero : F64.ofRat 0 = F64.finite false 0 := by decide!

/-- The literal `30`. -/
theorem ofRat_thirty : F64.ofRat 30 = F64.finite false 30 := by decide!

/-- The literal `100`. -/
theorem ofRat_hundred : F64.ofRat 100 = F64.finite false 100 := by decide!

/-- The number 1 is a binary64 number. -/
theorem roundMag_one : roundMag 1 = some 1 := by decide!

/-- Overflow is above every rounded magnitude. -/
theorem leMag_none (x : Option ℚ) : leMag x none := by
  cases x <;> trivial

/-- Rounding a non-negative rational gives a non-negative magnitude. -/
theorem nonnegMag_roundMag {q : ℚ} (h : 0 ≤ q) : NonnegMag (roundMag q) :=
  fun _ hr => roundMag_nonneg h hr

/-- A step that keeps numbers non-negative keeps rounded magnitudes non-negative. -/
theorem nonnegMag_bind {x : Option ℚ} {f : ℚ → Option ℚ} (hf : ∀ a, 0 ≤ a → NonnegMag (f a))
    (hx : NonnegMag x) : NonnegMag (x.bind f) := by
  cases x with
  | none => intro a h; cases h
  | some a => exact hf a (hx a rfl)

/-- A monotone step keeps the order of rounded magnitudes. -/
theorem leMag_bind {x y : Option ℚ} {f : ℚ → Option ℚ}
    (hf : ∀ a b, 0 ≤ a → a ≤ b → leMag (f a) (f b)) (hx : NonnegMag x) (h : leMag x y) :
    leMag (x.bind f) (y.bind f) := by
  cases y with
  | none => exact leMag_none _
  | some b =>
      cases x with
      | none => exact absurd h (by simp [leMag])
      | some a => exact hf a b (hx a rfl) h

/-- The comparison `<=` on non-negative values is the order of their magnitudes. -/
theorem le_ofMag (x y : Option ℚ) :
    F64.le (F64.ofMag false x) (F64.ofMag false y) = true ↔ leMag x y := by
  cases x <;> cases y <;> simp [F64.ofMag, F64.le, leMag]

/-- A non-negative value times a positive number. -/
theorem mul_ofMag (x : Option ℚ) (c : ℚ) (hc : c ≠ 0) :
    F64.mul (F64.ofMag false x) (F64.finite false c) =
      F64.ofMag false (x.bind (fun a => roundMag (a * c))) := by
  cases x <;> simp [F64.ofMag, F64.mul, hc]

/-- A non-negative value divided by a positive number. -/
theorem div_ofMag (x : Option ℚ) (c : ℚ) (hc : c ≠ 0) :
    F64.div (F64.ofMag false x) (F64.finite false c) =
      F64.ofMag false (x.bind (fun a => roundMag (a / c))) := by
  cases x <;> simp [F64.ofMag, F64.div, hc]

/-- The ceiling of a non-negative value. -/
theorem ceil_ofMag (x : Option ℚ) (hx : NonnegMag x) :
    F64.ceil (F64.ofMag false x) =
      F64.ofMag false (x.bind (fun a => some ((Int.ceil a : ℤ) : ℚ))) := by
  cases x with
  | none => rfl
  | some a =>
      have ha : 0 ≤ a := hx a rfl
      have hc : 0 ≤ Int.ceil a := Int.ceil_nonneg ha
      have hn : ¬ a < 0 := not_lt.mpr ha
      simp only [F64.ofMag, F64.ceil, F64.ofInteger, Option.some_bind, Bool.false_eq_true,
        if_false, Bool.false_or, hn, decide_False]
      split_ifs with h0 h1
      · rw [h0]; simp
      · omega
      · rfl

/-! ## Battery capacity and autonomy, in binary64 -/

/-- The literal `5.0`. -/
theorem ofRat_five : F64.ofRat 5 = F64.finite false 5 := by decide!

/-- The literal `0.95` as a binary64 number. -/
theorem inverterEfficiency_eq :
    inverterEfficiency = F64.finite false (4278419646001971 / 4503599627370496) := by decide!

/-- The entry of 'Andina'. -/
theorem peakSunHours_Andina : peakSunHours "Andina" = F64.finite false 5 := by decide!

/-- The entry of 'Caribe'. -/
theorem peakSunHours_Caribe : peakSunHours "Caribe" = F64.finite false (11 / 2) := by decide!

/-- The entry of 'Pacífica': the binary64 number nearest 4.8. -/
theorem peakSunHours_Pacifica :
    peakSunHours "Pacífica" = F64.finite false (5404319552844595 / 1125899906842624) := by
  decide!

/-- The entry of 'Orinoquía': the binary64 number nearest 5.2. -/
theorem peakSunHours_Orinoquia :
    peakSunHours "Orinoquía" = F64.finite false (5854679515581645 / 1125899906842624) := by
  decide!

/-- The entry of 'Amazonía'. -/
theorem peakSunHours_Amazonia : peakSunHours "Amazonía" = F64.finite false (9 / 2) := by decide!

/-- The entry of 'Bogotá (Altura)': the binary64 number nearest 4.2. -/
theorem peakSunHours_Bogota :
    peakSunHours "Bogotá (Altura)" =
      F64.finite false (4728779608739021 / 1125899906842624) := by
  decide!

/-- In binary64 `peakSunHours` is `NaN` (an inherited property) or a positive number. -/
theorem peakSunHours_nan_or_pos (region : String) :
    peakSunHours region = F64.nan ∨
      ∃ h : ℚ, 0 < h ∧ peakSunHours region = F64.finite false h := by
  by_cases h1 : region = "Andina"
  · subst h1; exact Or.inr ⟨_, by norm_num, peakSunHours_Andina⟩
  by_cases h2 : region = "Caribe"
  · subst h2; exact Or.inr ⟨_, by norm_num, peakSunHours_Caribe⟩
  by_cases h3 : region = "Pacífica"
  · subst h3; exact Or.inr ⟨_, by norm_num, peakSunHours_Pacifica⟩
  by_cases h4 : region = "Orinoquía"
  · subst h4; exact Or.inr ⟨_, by norm_num, peakSunHours_Orinoquia⟩
  by_cases h5 : region = "Amazonía"
  · subst h5; exact Or.inr ⟨_, by norm_num, peakSunHours_Amazonia⟩
  by_cases h6 : region = "Bogotá (Altura)"
  · subst h6; exact Or.inr ⟨_, by norm_num, peakSunHours_Bogota⟩
  by_cases hi : region ∈ objectPrototypeKeys
  · left
    simp [peakSunHours, REGION_HOURS, h1, h2, h3, h4, h5, h6, hi]
  · right
    refine ⟨5, by norm_num, ?_⟩
    simp [peakSunHours, REGION_HOURS, h1, h2, h3, h4, h5, h6, hi, ofRat_five]

/-- The expression `x || 0` on a non-negative number is that number. -/
theorem orElse_zero (c : ℚ) :
    F64.orElse (F64.finite false c) (F64.ofRat 0) = F64.finite false c := by
  unfold F64.orElse F64.truthy
  by_cases h : c = 0
  · subst h; simp [ofRat_zero]
  · simp [h]

/-- The daily energy of non-negative inputs is a non-negative value, unless
`peakSunHours` is `NaN`. -/
theorem dailyKwh_nonneg_form (cfg : Config) (c p : ℚ)
    (hcv : cfg.consumptionValue = F64.finite false c) (hc : 0 ≤ c)
    (hdp : cfg.desiredPowerKW = F64.finite false p) (hp : 0 ≤ p)
    (hreg : peakSunHours cfg.region ≠ F64.nan) :
    ∃ x : Option ℚ, NonnegMag x ∧ dailyKwh cfg = F64.ofMag false x := by
  unfold dailyKwh
  rw [hcv, hdp, orElse_zero, orElse_zero]
  split_ifs
  · refine ⟨roundMag (c / 30), nonnegMag_roundMag (by positivity), ?_⟩
    rw [ofRat_thirty]
    exact div_ofMag (some c) 30 (by norm_num)
  · exact ⟨some c, fun a h => by cases h; exact hc, rfl⟩
  · rcases peakSunHours_nan_or_pos cfg.region with hn | ⟨h, hpos, hh⟩
    · exact absurd hn hreg
    · refine ⟨roundMag (p * h), nonnegMag_roundMag (mul_nonneg hp hpos.le), ?_⟩
      rw [hh]
      exact mul_ofMag (some p) h hpos.ne.symm

/-- The usable fraction of a depth of discharge in (0, 100] is a non-negative number. -/
theorem usableFraction_form (cfg : Config) (a : ℚ)
    (hdod : cfg.dodPercent = F64.finite false a) (ha : 0 ≤ a) (ha100 : a ≤ 100) :
    ∃ u : ℚ, 0 ≤ u ∧ usableFraction cfg = F64.finite false u := by
  have h1 : leMag (roundMag (a / 100)) (roundMag 1) :=
    roundMag_mono (by positivity) (by rw [div_le_one (by norm_num)]; exact ha100)
  rw [roundMag_one] at h1
  cases hr : roundMag (a / 100) with
  | none => rw [hr] at h1; exact absurd h1 (by simp [leMag])
  | some r =>
      rw [hr] at h1
      have hr1 : r ≤ 1 := h1
      have hr0 : 0 ≤ r := roundMag_nonneg (by positivity) hr
      have h2 : leMag (roundMag (r * (4278419646001971 / 4503599627370496))) (roundMag 1) :=
        roundMag_mono (by positivity) (by nlinarith)
      rw [roundMag_one] at h2
      cases hu : roundMag (r * (4278419646001971 / 4503599627370496)) with
      | none => rw [hu] at h2; exact absurd h2 (by simp [leMag])
      | some u =>
          refine ⟨u, roundMag_nonneg (by positivity) hu, ?_⟩
          unfold usableFraction
          rw [hdod, ofRat_hundred, inverterEfficiency_eq]
          have e1 := div_ofMag (some a) 100 (by norm_num)
          simp only [F64.ofMag, Option.some_bind] at e1
          rw [e1, hr]
          have e2 := mul_ofMag (some r) (4278419646001971 / 4503599627370496) (by norm_num)
          simp only [F64.ofMag, Option.some_bind] at e2
          simp only [F64.ofMag]
          rw [e2, hu]

/-- The ceiling keeps rounded magnitudes non-negative. -/
theorem nonnegMag_ceil {x : Option ℚ} (hx : NonnegMag x) :
    NonnegMag (x.bind (fun a => some ((Int.ceil a : ℤ) : ℚ))) := by
  apply nonnegMag_bind _ hx
  intro a ha b hb
  cases hb
  exact_mod_cast Int.ceil_nonneg ha

/-- The battery computation gives a non-negative magnitude. -/
theorem batteryMag_nonneg (x : Option ℚ) (d u : ℚ) (hx : NonnegMag x) (hd : 0 ≤ d)
    (hu : 0 < u) : NonnegMag (batteryMag x d u) := by
  unfold batteryMag
  have s1 : NonnegMag (x.bind (fun a => roundMag (a * d))) :=
    nonnegMag_bind (fun a ha => nonnegMag_roundMag (mul_nonneg ha hd)) hx
  have s2 := nonnegMag_bind (f := fun a => roundMag (a / u))
    (fun a ha => nonnegMag_roundMag (div_nonneg ha hu.le)) s1
  have s3 := nonnegMag_bind (f := fun a => roundMag (a * 100))
    (fun a ha => nonnegMag_roundMag (by positivity)) s2
  have s4 := nonnegMag_ceil s3
  exact nonnegMag_bind (f := fun a => roundMag (a / 100))
    (fun a ha => nonnegMag_roundMag (by positivity)) s4

/-- The battery computation is monotone in the number of days. -/
theorem batteryMag_mono (x : Option ℚ) (d1 d2 u : ℚ) (hx : NonnegMag x) (hd : 0 ≤ d1)
    (h12 : d1 ≤ d2) (hu : 0 < u) : leMag (batteryMag x d1 u) (batteryMag x d2 u) := by
  unfold batteryMag
  have s1a : NonnegMag (x.bind (fun a => roundMag (a * d1))) :=
    nonnegMag_bind (fun a ha => nonnegMag_roundMag (mul_nonneg ha hd)) hx
  have s1 : leMag (x.bind (fun a => roundMag (a * d1))) (x.bind (fun a => roundMag (a * d2))) := by
    cases x with
    | none => trivial
    | some e =>
        have he : 0 ≤ e := hx e rfl
        exact roundMag_mono (mul_nonneg he hd) (mul_le_mul_of_nonneg_left h12 he)
  have s2a := nonnegMag_bind (f := fun a => roundMag (a / u))
    (fun a ha => nonnegMag_roundMag (div_nonneg ha hu.le)) s1a
  have s2 := leMag_bind (f := fun a => roundMag (a / u))
    (fun a b ha hab => roundMag_mono (div_nonneg ha hu.le)
      (div_le_div_of_nonneg_right hab hu.le)) s1a s1
  have s3a := nonnegMag_bind (f := fun a => roundMag (a * 100))
    (fun a ha => nonnegMag_roundMag (by positivity)) s2a
  have s3 := leMag_bind (f := fun a => roundMag (a * 100))
    (fun a b ha hab => roundMag_mono (by positivity)
      (mul_le_mul_of_nonneg_right hab (by norm_num))) s2a s2
  have s4a := nonnegMag_ceil s3a
  have s4 := leMag_bind (f := fun a => some ((Int.ceil a : ℤ) : ℚ))
    (fun a b _ hab => by
      show ((Int.ceil a : ℤ) : ℚ) ≤ ((Int.ceil b : ℤ) : ℚ)
      exact_mod_cast Int.ceil_mono hab) s3a s3
  exact leMag_bind (f := fun a => roundMag (a / 100))
    (fun a b ha hab => roundMag_mono (by positivity)
      (div_le_div_of_nonneg_right hab (by norm_num))) s4a s4

/-- The battery capacity of a configuration whose daily energy is the non-negative
value `x`, whose autonomy is `d` days and whose usable fraction is `u > 0`. -/
theorem batteryKwh_form (cfg : Config) (x : Option ℚ) (d u : ℚ) (hx : NonnegMag x)
    (hE : dailyKwh cfg = F64.ofMag false x) (hd : cfg.autonomyDays = F64.finite false d)
    (hU : usableFraction cfg = F64.finite false u) (hu : 0 < u) :
    batteryKwh cfg = F64.ofMag false (if 0 < d then batteryMag x d u else some 0) := by
  unfold batteryKwh
  rw [hd]
  by_cases hpos : 0 < d
  · have hg : F64.gtZero (F64.finite false d) = true := by simp [F64.gtZero, hpos]
    rw [hg, if_pos rfl, if_pos hpos, hE, hU, ofRat_hundred]
    have n1 : NonnegMag (x.bind (fun a => roundMag (a * d))) :=
      nonnegMag_bind (fun a ha => nonnegMag_roundMag (mul_nonneg ha hpos.le)) hx
    have n2 := nonnegMag_bind (f := fun a => roundMag (a / u))
      (fun a ha => nonnegMag_roundMag (div_nonneg ha hu.le)) n1
    have n3 := nonnegMag_bind (f := fun a => roundMag (a * 100))
      (fun a ha => nonnegMag_roundMag (by positivity)) n2
    rw [mul_ofMag x d hpos.ne.symm, div_ofMag _ u hu.ne.symm, mul_ofMag _ 100 (by norm_num),
      ceil_ofMag _ n3, div_ofMag _ 100 (by norm_num)]
    rfl
  · have hg : F64.gtZero (F64.finite false d) = false := by simp [F64.gtZero, hpos]
    rw [hg, if_neg (by simp), if_neg hpos, ofRat_zero]
    rfl

/-- C3 as stated fails in binary64: with consumptionValue 0 and dodPercent 1e-323 (positive
and at most 100) the quotient dodPercent / 100 underflows to zero, so batteryKwh is 0 for
autonomyDays 0 and NaN (0 / 0) for autonomyDays 1, and 0 <= NaN is false. -/
theorem batteryKwh_underflow_not_monotone :
    F64.gtZero (underflowExample 0).dodPercent = true ∧
      F64.le (underflowExample 0).dodPercent (F64.ofRat 100) = true ∧
      F64.le (F64.ofRat 0) (F64.ofRat 1) = true ∧
      usableFraction (underflowExample 1) = F64.finite false 0 ∧
      (results (underflowExample 0)).batteryKwh = F64.ofRat 0 ∧
      (results (underflowExample 1)).batteryKwh = F64.nan ∧
      F64.le (results (underflowExample 0)).batteryKwh
        (results (underflowExample 1)).batteryKwh = false := by
  decide!

/-- C3 amended: for two configurations that differ only in autonomyDays, with
0 <= d1 <= d2, 0 < dodPercent <= 100, non-negative consumptionValue and desiredPowerKW,
a usableFraction that is not zero as computed and a peakSunHours that is a number,
batteryKwh for d1 is `<=` batteryKwh for d2 in binary64 (overflow to Infinity included). -/
theorem batteryKwh_mono_autonomy_binary64 (cfg : Config) (c p a m1 m2 : ℚ)
    (hcv : cfg.consumptionValue = F64.finite false c) (hc : 0 ≤ c)
    (hdp : cfg.desiredPowerKW = F64.finite false p) (hp : 0 ≤ p)
    (hdod : cfg.dodPercent = F64.finite false a) (ha : 0 < a) (ha100 : a ≤ 100)
    (hU : F64.truthy (usableFraction cfg) = true)
    (hreg : peakSunHours cfg.region ≠ F64.nan)
    (hm1 : 0 ≤ m1) (h12 : m1 ≤ m2) :
    F64.le (results { cfg with autonomyDays := F64.finite false m1 }).batteryKwh
      (results { cfg with autonomyDays := F64.finite false m2 }).batteryKwh = true := by
  obtain ⟨x, hx, hE⟩ := dailyKwh_nonneg_form cfg c p hcv hc hdp hp hreg
  obtain ⟨u, hu0, hUf⟩ := usableFraction_form cfg a hdod ha.le ha100
  have hune : u ≠ 0 := by
    rw [hUf] at hU
    simpa [F64.truthy] using hU
  have hu : 0 < u := lt_of_le_of_ne hu0 (Ne.symm hune)
  have b1 := batteryKwh_form { cfg with autonomyDays := F64.finite false m1 } x m1 u hx hE rfl
    hUf hu
  have b2 := batteryKwh_form { cfg with autonomyDays := F64.finite false m2 } x m2 u hx hE rfl
    hUf hu
  show F64.le (batteryKwh { cfg with autonomyDays := F64.finite false m1 })
      (batteryKwh { cfg with autonomyDays := F64.finite false m2 }) = true
  rw [b1, b2, le_ofMag]
  by_cases z2 : 0 < m2
  · rw [if_pos z2]
    by_cases z1 : 0 < m1
    · rw [if_pos z1]
      exact batteryMag_mono x m1 m2 u hx hm1 h12 hu
    · rw [if_neg z1]
      have hn := batteryMag_nonneg x m2 u hx z2.le hu
      cases hb : batteryMag x m2 u with
      | none => trivial
      | some b => exact hn b hb
  · have z1 : ¬ 0 < m1 := fun h => z2 (lt_of_lt_of_le h h12)
    rw [if_neg z1, if_neg z2]
    exact le_refl (0 : ℚ)

/-- Witness of C3 amended: the small-industry figures, from no autonomy to one day. -/
theorem batteryKwh_mono_autonomy_binary64_witness :
    F64.le (results { industryExample with autonomyDays := F64.finite false 0 }).batteryKwh
      (results { industryExample with autonomyDays := F64.finite false 1 }).batteryKwh = true :=
  batteryKwh_mono_autonomy_binary64 industryExample 8000 5 80 0 1 rfl (by norm_num) rfl
    (by norm_num) rfl (by norm_num) (by norm_num) (by decide!) (by decide!) (by norm_num)
    (by norm_num)

/-! ## Rounding up to hundredths, in binary64 -/

/-- An integer result has the integer as its value. -/
theorem toRat_ofInteger (b : Bool) (k : ℤ) : F64.toRat (F64.ofInteger b k) = some (k : ℚ) := by
  unfold F64.ofInteger
  split_ifs with h0 h1
  · subst h0; cases b <;> simp [F64.toRat]
  · simp [F64.toRat]
  · simp [F64.toRat]

/-- An integer `k` divided by 100 is the binary64 number nearest `k / 100`, up to the
sign of a zero. -/
theorem div_ofInteger_hundred (b : Bool) (k : ℤ) :
    F64.div (F64.ofInteger b k) (F64.ofRat 100) = F64.ofRat ((k : ℚ) / 100) ∨
      (k = 0 ∧ F64.div (F64.ofInteger b k) (F64.ofRat 100) = F64.finite true 0) := by
  rw [ofRat_hundred]
  unfold F64.ofInteger
  have r0 : roundMag 0 = some 0 := by simp [roundMag]
  split_ifs with h0 h1
  · subst h0
    cases b
    · left
      simp [F64.div, F64.ofRat, F64.ofMag, r0]
    · right
      simp [F64.div, F64.ofMag, r0]
  · left
    have hk : ((k : ℚ) / 100) < 0 := by
      apply div_neg_of_neg_of_pos _ (by norm_num)
      exact_mod_cast h1
    have e : ((-k : ℤ) : ℚ) / 100 = -((k : ℚ) / 100) := by push_cast; ring
    simp only [F64.div, F64.ofRat, hk, if_true]
    rw [if_neg (by norm_num), e]
    rfl
  · left
    have hk : ¬ ((k : ℚ) / 100) < 0 := by
      push_neg
      apply div_nonneg _ (by norm_num)
      have : 0 ≤ k := by omega
      exact_mod_cast this
    simp only [F64.div, F64.ofRat, hk, if_false]
    rw [if_neg (by norm_num)]
    rfl

/-- The expression `Math.ceil(z) / 100` for a finite `z` of value `v`: the number written
`k / 100`, `k` being the least integer not below `v`. -/
theorem ceil_div_hundred (z : F64) (v : ℚ) (hz : F64.toRat z = some v) :
    ∃ k : ℤ, IsLeast {m : ℤ | v ≤ (m : ℚ)} k ∧
      (F64.div (F64.ceil z) (F64.ofRat 100) = F64.ofRat ((k : ℚ) / 100) ∨
        (k = 0 ∧ F64.div (F64.ceil z) (F64.ofRat 100) = F64.finite true 0)) := by
  cases z with
  | finite s m =>
      simp only [F64.toRat, Option.some.injEq] at hz
      refine ⟨Int.ceil v, ⟨Int.le_ceil v, fun m hm => Int.ceil_le.mpr hm⟩, ?_⟩
      simp only [F64.ceil]
      rw [hz]
      exact div_ofInteger_hundred _ _
  | infinite s => simp [F64.toRat] at hz
  | nan => simp [F64.toRat] at hz

/-- The expression `Math.round(z) / 100` for a finite `z` of value `v`: the number written
`k / 100`, `k` being the integer nearest `v`, a half going up. -/
theorem round_div_hundred (z : F64) (v : ℚ) (hz : F64.toRat z = some v) :
    ∃ k : ℤ, ((k : ℚ) ≤ v + 1 / 2 ∧ v + 1 / 2 < (k : ℚ) + 1) ∧
      (F64.div (F64.round z) (F64.ofRat 100) = F64.ofRat ((k : ℚ) / 100) ∨
        (k = 0 ∧ F64.div (F64.round z) (F64.ofRat 100) = F64.finite true 0)) := by
  cases z with
  | finite s m =>
      simp only [F64.toRat, Option.some.injEq] at hz
      refine ⟨Int.floor (v + 1 / 2), ⟨Int.floor_le _, Int.lt_floor_add_one _⟩, ?_⟩
      simp only [F64.round]
      rw [hz]
      exact div_ofInteger_hundred _ _
  | infinite s => simp [F64.toRat] at hz
  | nan => simp [F64.toRat] at hz

/-- The value of `Math.ceil(z)` for a finite `z` of value `v`. -/
theorem toRat_ceil (z : F64) (v : ℚ) (hz : F64.toRat z = some v) :
    ∃ k : ℤ, IsLeast {m : ℤ | v ≤ (m : ℚ)} k ∧ F64.toRat (F64.ceil z) = some (k : ℚ) := by
  cases z with
  | finite s m =>
      simp only [F64.toRat, Option.some.injEq] at hz
      refine ⟨Int.ceil v, ⟨Int.le_ceil v, fun m hm => Int.ceil_le.mpr hm⟩, ?_⟩
      simp only [F64.ceil]
      rw [hz]
      exact toRat_ofInteger _ _
  | infinite s => simp [F64.toRat] at hz
  | nan => simp [F64.toRat] at hz

/-! ## The suggested inverter, in binary64 -/

/-- C4 as stated fails in binary64: in the initial state with inverterFactor 1.5 the array
peak power is 2.7 and the product 2.7 * 1.5 * 100 is computed as 405.00000000000006, so
suggestedInverterKW is 4.06, which is not below 2.7 * 1.5 + 0.01 = 4.06. -/
theorem suggestedInverterKW_not_within_hundredth :
    (results factorExample).arrayPeakPowerKW = F64.ofRat (27 / 10) ∧
      factorExample.inverterFactor = F64.ofRat (15 / 10) ∧
      F64.toRat (F64.mul (F64.mul (results factorExample).arrayPeakPowerKW
          factorExample.inverterFactor) (F64.ofRat 100))
        = some (7124835347988481 / 17592186044416) ∧
      (results factorExample).suggestedInverterKW = F64.ofRat (406 / 100) ∧
      ¬ ((406 / 100 : ℚ) < (27 / 10) * (15 / 10) + 1 / 100) := by
  refine ⟨by decide!, by decide!, by decide!, by decide!, by norm_num⟩

/-- C4 amended: when the binary64 product arrayPeakPowerKW * inverterFactor * 100 is a
finite number v, suggestedInverterKW is the number written k / 100 for the least integer k
not below v: it is rounded up, never down, from the computed product. -/
theorem suggestedInverterKW_ceil_of_product (cfg : Config) (v : ℚ)
    (hv : F64.toRat (F64.mul (F64.mul (results cfg).arrayPeakPowerKW cfg.inverterFactor)
      (F64.ofRat 100)) = some v) :
    ∃ k : ℤ, IsLeast {m : ℤ | v ≤ (m : ℚ)} k ∧
      ((results cfg).suggestedInverterKW = F64.ofRat ((k : ℚ) / 100) ∨
        (k = 0 ∧ (results cfg).suggestedInverterKW = F64.finite true 0)) :=
  ceil_div_hundred _ v hv

/-- Witness of C4 amended: the initial state with inverterFactor 1.5, where the computed
product is 405.00000000000006 and k is 406. -/
theorem suggestedInverterKW_ceil_of_product_witness :
    ∃ k : ℤ, IsLeast {m : ℤ | (7124835347988481 / 17592186044416 : ℚ) ≤ (m : ℚ)} k ∧
      ((results factorExample).suggestedInverterKW = F64.ofRat ((k : ℚ) / 100) ∨
        (k = 0 ∧ (results factorExample).suggestedInverterKW = F64.finite true 0)) :=
  suggestedInverterKW_ceil_of_product factorExample (7124835347988481 / 17592186044416)
    (by decide!)

/-! ## Battery sizing, in binary64 -/

/-- C5 as stated fails in binary64: at 570 kWh per month, three days and depth of discharge
60 % the quotient 57 / 0.57 is computed as 100.00000000000001, so batteryKwh is 100.01,
although (19 * 3) / ((60 / 100) * 0.95) is exactly 100, a smaller multiple of 0.01. -/
theorem batteryKwh_not_smallest_multiple :
    (results batteryRoundingExample).batteryKwh = F64.ofRat (10001 / 100) ∧
      ((570 / 30 : ℚ) * 3) / ((60 / 100) * (95 / 100)) ≤ (10000 : ℚ) / 100 ∧
      (10000 : ℚ) / 100 < 10001 / 100 := by
  refine ⟨by decide!, by norm_num, by norm_num⟩

/-- C5 amended: batteryKwh is 0 when autonomyDays > 0 is false (in particular at 0); when
autonomyDays > 0 and the binary64 value of dailyKwh * autonomyDays / usableFraction * 100
is a finite number v, batteryKwh is the number written k / 100 for the least integer k not
below v; and 10 kW in 'Caribe' with one day and depth of discharge 80 % gives daily energy
55 and batteryKwh 72.37. -/
theorem batteryKwh_sizing_binary64 :
    (∀ cfg : Config, F64.gtZero cfg.autonomyDays = false →
      (results cfg).batteryKwh = F64.ofRat 0) ∧
    (∀ (cfg : Config) (v : ℚ), F64.gtZero cfg.autonomyDays = true →
      F64.toRat (F64.mul (F64.div (F64.mul (dailyKwh cfg) cfg.autonomyDays)
        (usableFraction cfg)) (F64.ofRat 100)) = some v →
      ∃ k : ℤ, IsLeast {m : ℤ | v ≤ (m : ℚ)} k ∧
        ((results cfg).batteryKwh = F64.ofRat ((k : ℚ) / 100) ∨
          (k = 0 ∧ (results cfg).batteryKwh = F64.finite true 0))) ∧
    (dailyKwh batteryExample = F64.ofRat 55 ∧
      (results batteryExample).batteryKwh = F64.ofRat (7237 / 100)) := by
  refine ⟨?_, ?_, by decide!, by decide!⟩
  · intro cfg h
    show batteryKwh cfg = _
    unfold batteryKwh
    rw [h]
    rfl
  · intro cfg v h hv
    show ∃ k : ℤ, IsLeast {m : ℤ | v ≤ (m : ℚ)} k ∧
        (batteryKwh cfg = F64.ofRat ((k : ℚ) / 100) ∨
          (k = 0 ∧ batteryKwh cfg = F64.finite true 0))
    unfold batteryKwh
    rw [h, if_pos rfl]
    exact ceil_div_hundred _ v hv

/-- Witness of C5 amended: the battery example, where the computed value is
7236.842105263158 and k is 7237. -/
theorem batteryKwh_sizing_binary64_witness :
    ∃ k : ℤ, IsLeast {m : ℤ | (7956992043115789 / 1099511627776 : ℚ) ≤ (m : ℚ)} k ∧
      ((results batteryExample).batteryKwh = F64.ofRat ((k : ℚ) / 100) ∨
        (k = 0 ∧ (results batteryExample).batteryKwh = F64.finite true 0)) :=
  batteryKwh_sizing_binary64.2.1 batteryExample (7956992043115789 / 1099511627776)
    (by decide!) (by decide!)

/-! ## The returned record, in binary64 -/

/-- C7 amended: whPerDay is the binary64 product of the unrounded daily energy (the
dailyKwh memo) by 1000, not 1000 times the returned field; the returned dailyKwh is
Math.round(dailyKwh * 100) / 100 of the same unrounded value: when the product
dailyKwh * 100 is a finite number v it is the number written k / 100 for the integer k
nearest v (a half going up). -/
theorem whPerDay_of_unrounded_dailyKwh (cfg : Config) :
    (results cfg).whPerDay = F64.mul (dailyKwh cfg) (F64.ofRat 1000) ∧
      ∀ v : ℚ, F64.toRat (F64.mul (dailyKwh cfg) (F64.ofRat 100)) = some v →
        ∃ k : ℤ, ((k : ℚ) ≤ v + 1 / 2 ∧ v + 1 / 2 < (k : ℚ) + 1) ∧
          ((results cfg).dailyKwh = F64.ofRat ((k : ℚ) / 100) ∨
            (k = 0 ∧ (results cfg).dailyKwh = F64.finite true 0)) :=
  ⟨rfl, fun v hv => round_div_hundred _ v hv⟩

/-- Witness of C7 amended: 100 kWh per month, where dailyKwh * 100 is computed as
333.33333333333337 and the returned dailyKwh is 3.33. -/
theorem whPerDay_of_unrounded_dailyKwh_witness :
    ∃ k : ℤ, ((k : ℚ) ≤ (2932031007402667 / 8796093022208 : ℚ) + 1 / 2 ∧
        (2932031007402667 / 8796093022208 : ℚ) + 1 / 2 < (k : ℚ) + 1) ∧
      ((results roundingExample).dailyKwh = F64.ofRat ((k : ℚ) / 100) ∨
        (k = 0 ∧ (results roundingExample).dailyKwh = F64.finite true 0)) :=
  (whPerDay_of_unrounded_dailyKwh roundingExample).2 (2932031007402667 / 8796093022208)
    (by decide!)

/-! ## Panel count, in binary64 -/

/-- C9 as stated fails in binary64: at 324 kWh per month in 'Pacífica' with 25 % losses
and 300 W panels the divisor 4.8 * 0.75 is computed as 3.5999999999999996, so
requiredArrayW is 3001 and numPanels is 11, although 10 panels already satisfy
n * panelWatt * peakSunHours * (1 - lossesPercent / 100) >= 1000 * dailyKwh. -/
theorem numPanels_not_minimal :
    (results panelExample).requiredArrayW = F64.ofRat 3001 ∧
      (results panelExample).numPanels = F64.ofRat 11 ∧
      (1000 : ℚ) * (324 / 30) ≤ 10 * 300 * (48 / 10) * (1 - 25 / 100) ∧
      (10 : ℚ) < 11 := by
  refine ⟨by decide!, by decide!, by norm_num, by norm_num⟩

/-- C9 amended: requiredArrayW is the least integer not below the binary64 quotient
whPerDay / (peakSunHours * systemEfficiency), and numPanels is the least integer not below
the binary64 quotient requiredArrayW / panelWatt, whenever peakSunHours > 0, panelWatt > 0
and the quotients are finite numbers. -/
theorem numPanels_ceil_of_quotient (cfg : Config) :
    (∀ w : ℚ, F64.gtZero (peakSunHours cfg.region) = true →
      F64.toRat (F64.div (whPerDay cfg)
        (F64.mul (peakSunHours cfg.region) (systemEfficiency cfg))) = some w →
      ∃ r : ℤ, IsLeast {m : ℤ | w ≤ (m : ℚ)} r ∧
        F64.toRat (results cfg).requiredArrayW = some (r : ℚ)) ∧
    (∀ v : ℚ, F64.gtZero cfg.panelWatt = true →
      F64.toRat (F64.div (results cfg).requiredArrayW cfg.panelWatt) = some v →
      ∃ n : ℤ, IsLeast {m : ℤ | v ≤ (m : ℚ)} n ∧
        F64.toRat (results cfg).numPanels = some (n : ℚ)) := by
  constructor
  · intro w hg hw
    show ∃ r : ℤ, IsLeast {m : ℤ | w ≤ (m : ℚ)} r ∧
        F64.toRat (requiredArrayW cfg) = some (r : ℚ)
    unfold requiredArrayW
    rw [hg, if_pos rfl]
    exact toRat_ceil _ w hw
  · intro v hg hv
    show ∃ n : ℤ, IsLeast {m : ℤ | v ≤ (m : ℚ)} n ∧
        F64.toRat (numPanels cfg) = some (n : ℚ)
    unfold numPanels
    rw [hg, if_pos rfl]
    exact toRat_ceil _ v hv

/-- Witness of C9 amended: the panel example, where requiredArrayW / panelWatt is computed
as 10.003333333333334 and numPanels is 11. -/
theorem numPanels_ceil_of_quotient_witness :
    ∃ n : ℤ, IsLeast {m : ℤ | (2815688017028929 / 281474976710656 : ℚ) ≤ (m : ℚ)} n ∧
      F64.toRat (results panelExample).numPanels = some (n : ℚ) :=
  (numPanels_ceil_of_quotient panelExample).2 (2815688017028929 / 281474976710656)
    (by decide!) (by decide!)

/-! ## Region and array sizing in 'potencia' mode, in binary64 -/

/-- C10 as stated fails in binary64: at 5.4 kW with no losses and 450 W panels, 'Caribe'
gives requiredArrayW 5401, 13 panels, 5.85 kW and 7.32 kW while 'Andina' gives 5400, 12,
5.4 and 6.75, and ceil(1000 * 5.4 / 1) is 5400. -/
theorem potencia_sizing_differs_by_region :
    (potenciaExample "Caribe").mode = "potencia" ∧
      (results (potenciaExample "Caribe")).requiredArrayW = F64.ofRat 5401 ∧
      (results (potenciaExample "Caribe")).numPanels = F64.ofRat 13 ∧
      (results (potenciaExample "Caribe")).arrayPeakPowerKW = F64.ofRat (585 / 100) ∧
      (results (potenciaExample "Caribe")).suggestedInverterKW = F64.ofRat (732 / 100) ∧
      (results (potenciaExample "Andina")).requiredArrayW = F64.ofRat 5400 ∧
      (results (potenciaExample "Andina")).numPanels = F64.ofRat 12 ∧
      (results (potenciaExample "Andina")).arrayPeakPowerKW = F64.ofRat (54 / 10) ∧
      (results (potenciaExample "Andina")).suggestedInverterKW = F64.ofRat (675 / 100) ∧
      (results (potenciaExample "Caribe")).requiredArrayW ≠
        (results (potenciaExample "Andina")).requiredArrayW ∧
      jsCeil (1000 * (54 / 10) / (1 - 0 / 100)) = 5400 := by
  refine ⟨rfl, by decide!, by decide!, by decide!, by decide!, by decide!, by decide!,
    by decide!, by decide!, by decide!, ?_⟩
  exact jsCeil_eq _ 5400 (by norm_num) (by norm_num)

/-- C10 amended: in 'potencia' mode with peakSunHours > 0, requiredArrayW is Math.ceil of
the binary64 quotient (desiredPowerKW * peakSunHours * 1000) /
(peakSunHours * (1 - lossesPercent / 100)), where peakSunHours cancels only up to rounding;
numPanels, arrayPeakPowerKW and suggestedInverterKW depend on the region only through
requiredArrayW, so two configurations that differ only in region and have the same
requiredArrayW agree on them; at 5 kW and 20 % losses all six regions give 6250 W. -/
theorem potencia_region_through_requiredArrayW :
    (∀ cfg : Config, cfg.mode ≠ "consumo" →
      F64.gtZero (peakSunHours cfg.region) = true →
      (results cfg).requiredArrayW =
        F64.ceil (F64.div
          (F64.mul (F64.mul (F64.orElse cfg.desiredPowerKW (F64.ofRat 0))
            (peakSunHours cfg.region)) (F64.ofRat 1000))
          (F64.mul (peakSunHours cfg.region)
            (F64.sub (F64.ofRat 1) (F64.div cfg.lossesPercent (F64.ofRat 100)))))) ∧
    (∀ (cfg : Config) (r1 r2 : String),
      (results { cfg with region := r1 }).requiredArrayW =
        (results { cfg with region := r2 }).requiredArrayW →
      (results { cfg with region := r1 }).numPanels =
          (results { cfg with region := r2 }).numPanels ∧
        (results { cfg with region := r1 }).arrayPeakPowerKW =
          (results { cfg with region := r2 }).arrayPeakPowerKW ∧
        (results { cfg with region := r1 }).suggestedInverterKW =
          (results { cfg with region := r2 }).suggestedInverterKW) ∧
    (∀ region : String, region ∈ regionKeys →
      (results (potenciaDefault region)).requiredArrayW = F64.ofRat 6250) := by
  refine ⟨?_, ?_, ?_⟩
  · intro cfg hm hg
    show requiredArrayW cfg = _
    unfold requiredArrayW
    rw [hg, if_pos rfl]
    unfold whPerDay dailyKwh systemEfficiency
    rw [if_neg hm]
  · intro cfg r1 r2 h
    have hreq : requiredArrayW { cfg with region := r1 } =
        requiredArrayW { cfg with region := r2 } := h
    have hnum : numPanels { cfg with region := r1 } = numPanels { cfg with region := r2 } := by
      simp only [numPanels, hreq]
    have hpeak : arrayPeakPowerKW { cfg with region := r1 } =
        arrayPeakPowerKW { cfg with region := r2 } := by
      simp only [arrayPeakPowerKW, hnum]
    have hinv : suggestedInverterKW { cfg with region := r1 } =
        suggestedInverterKW { cfg with region := r2 } := by
      simp only [suggestedInverterKW, hpeak]
    exact ⟨hnum, hpeak, hinv⟩
  · intro region hr
    simp only [regionKeys, List.mem_cons, List.mem_singleton, List.not_mem_nil, or_false] at hr
    rcases hr with h | h | h | h | h | h <;> subst h <;> decide!

/-- Witness of C10 amended: 5 kW at 20 % losses in 'Andina' and 'Caribe', both 6250 W. -/
theorem potencia_region_through_requiredArrayW_witness :
    (results { potenciaDefault "Andina" with region := "Andina" }).numPanels =
        (results { potenciaDefault "Andina" with region := "Caribe" }).numPanels ∧
      (results { potenciaDefault "Andina" with region := "Andina" }).arrayPeakPowerKW =
        (results { potenciaDefault "Andina" with region := "Caribe" }).arrayPeakPowerKW ∧
      (results { potenciaDefault "Andina" with region := "Andina" }).suggestedInverterKW =
        (results { potenciaDefault "Andina" with region := "Caribe" }).suggestedInverterKW :=
  potencia_region_through_requiredArrayW.2.1 (potenciaDefault "Andina") "Andina" "Caribe"
    (by decide!)

end Binary64

end CalculadoraSolar
